import Mathlib

/-!
rest.bitcoin.com: error decoding, array guard and bulk block lookups.

A shallow embedding of

* `src/util/route-utils.js` (`validateArraySize`, `validateNetwork`, `decodeError`),
* `src/routes/v2/route-utils.js` (`validateNetwork`, and `decodeError`, the older
  three-branch version); this is the module `require("./route-utils")` resolves to in
  the route files, and it exports no `validateArraySize`,
* `src/routes/v2/block.ts` (`detailsByHashSingle`, `detailsByHashBulk`,
  `detailsByHeightSingle`, `detailsByHeightBulk`),
* `src/routes/v2/mining.ts` (`getMiningInfo`, `getNetworkHashPS`),
* `src/routes/v2/slp.ts` (`validateBulk`, `getRawTransactionsFromNode`, and
  `balancesForAddressByTokenID` from the fetched balances on),

over a small model of JavaScript values.  Values are plain data (no getters, no
function-valued properties); numbers are integers.  A JavaScript `throw` is the
`Except.error` outcome, carrying the thrown value.
-/

set_option linter.unusedVariables false

namespace RestBitcoin

/-- JavaScript values: the JSON-like data a failure, a request or a payload is made of. -/
inductive JSVal where
  | undefined : JSVal
  | null : JSVal
  | bool (b : Bool) : JSVal
  | num (n : Int) : JSVal
  | str (s : String) : JSVal
  | arr (items : List JSVal) : JSVal
  | obj (fields : List (String × JSVal)) : JSVal

namespace JSVal

/-- JavaScript `ToBoolean`: `undefined`, `null`, `false`, `0` and `""` are falsy. -/
def truthy : JSVal → Bool
  | undefined => false
  | null => false
  | bool b => b
  | num n => n != 0
  | str s => s != ""
  | arr _ => true
  | obj _ => true

/-- The value is a string (`typeof v === "string"`). -/
def isString : JSVal → Bool
  | str _ => true
  | _ => false

/-- The value is a number (`typeof v === "number"`). -/
def isNumber : JSVal → Bool
  | num _ => true
  | _ => false

/-- The built-in `Array.isArray`. -/
def isArray : JSVal → Bool
  | arr _ => true
  | _ => false

/-- Strict equality `v === "s"` against a string literal. -/
def strictEqStr : JSVal → String → Bool
  | str t, s => t == s
  | _, _ => false

/-- Strict equality `v === n` against a number literal. -/
def strictEqNum : JSVal → Int → Bool
  | num m, n => m == n
  | _, _ => false

end JSVal

open JSVal

/-- The `TypeError` a JavaScript engine throws, as a value: an error object that has a
message and neither a `response` nor a `code`. -/
def typeError (detail : String) : JSVal :=
  .obj [("name", .str "TypeError"), ("message", .str detail)]

/-- Number of UTF-16 code units of a character. -/
def utf16Width (c : Char) : Nat := if c.val < 0x10000 then 1 else 2

/-- The `length` of a JavaScript string, in UTF-16 code units. -/
def utf16Len (cs : List Char) : Nat := (cs.map utf16Width).sum

/-- Property read `v.k`.  Reading a property of `undefined` or `null` throws a
`TypeError`; a field an object does not have reads as `undefined`; arrays and strings
have a `length`; other properties of primitives read as `undefined`. -/
def getProp (v : JSVal) (k : String) : Except JSVal JSVal :=
  match v with
  | .undefined => .error (typeError ("Cannot read property " ++ k ++ " of undefined"))
  | .null => .error (typeError ("Cannot read property " ++ k ++ " of null"))
  | .obj fields => .ok ((fields.lookup k).getD .undefined)
  | .arr items => .ok (if k = "length" then .num items.length else .undefined)
  | .str s => .ok (if k = "length" then .num (utf16Len s.data) else .undefined)
  | .bool _ => .ok .undefined
  | .num _ => .ok .undefined

/-- Does the character list start with the given pattern? -/
def startsWith : List Char → List Char → Bool
  | _, [] => true
  | [], _ :: _ => false
  | c :: cs, p :: ps => c == p && startsWith cs ps

/-- Search of `String.prototype.indexOf`: the offset of the first occurrence of
`needle` at or after offset `i`, or `-1`. -/
def indexOfFrom (needle : List Char) : List Char → Nat → Int
  | [], i => if startsWith [] needle then (i : Int) else -1
  | c :: cs, i =>
    if startsWith (c :: cs) needle then (i : Int)
    else indexOfFrom needle cs (i + utf16Width c)

/-- The method `String.prototype.indexOf`. -/
def strIndexOf (s needle : String) : Int := indexOfFrom needle.data s.data 0

/-- The method `Array.prototype.indexOf` with a string argument: the index of the first
element strictly equal to the string, or `-1`. -/
def arrIndexOfFrom (needle : String) : List JSVal → Nat → Int
  | [], _ => -1
  | x :: xs, i => if x.strictEqStr needle then (i : Int) else arrIndexOfFrom needle xs (i + 1)

/-- The method call `recv.indexOf(needle)`.  Strings and arrays have the method; on any
other value the property `indexOf` is not a function and the call throws a
`TypeError`. -/
def callIndexOf (recv : JSVal) (needle : String) : Except JSVal Int :=
  match recv with
  | .str s => .ok (strIndexOf s needle)
  | .arr items => .ok (arrIndexOfFrom needle items 0)
  | .undefined => .error (typeError "Cannot read property indexOf of undefined")
  | .null => .error (typeError "Cannot read property indexOf of null")
  | _ => .error (typeError "err.message.indexOf is not a function")

/-- The object `decodeError` returns: `{ msg, status }`. -/
structure Decoded where
  msg : JSVal
  status : JSVal

/-- The message of the 503 answer in `src/util/route-utils.js`. -/
def networkErrorMsg : String :=
  "Network error: Could not communicate with full node or other external service."

/-- The message of the 503 answer in `src/routes/v2/route-utils.js`. -/
def networkErrorMsgV2 : String :=
  "Network error: Could not communicate with full node."

/-- The condition `err.response && err.response.data && err.response.data.error &&
err.response.data.error.message`: the value of the `&&` chain. -/
def fullNodeCond (err : JSVal) : Except JSVal JSVal := do
  let response ← getProp err "response"
  if response.truthy then
    let data ← getProp response "data"
    if data.truthy then
      let error ← getProp data "error"
      if error.truthy then getProp error "message" else pure error
    else pure data
  else pure response

/-- The condition `err.response && err.response.data`. -/
def insightCond (err : JSVal) : Except JSVal JSVal := do
  let response ← getProp err "response"
  if response.truthy then getProp response "data" else pure response

/-- The condition `err.message && (err.message.indexOf("ENOTFOUND") > -1 ||
err.message.indexOf("ENETUNREACH") > -1 || err.message.indexOf("EAI_AGAIN") > -1)`,
as a truth value. -/
def networkCond (err : JSVal) : Except JSVal Bool := do
  let message ← getProp err "message"
  if message.truthy then
    let i1 ← callIndexOf message "ENOTFOUND"
    if i1 > -1 then pure true
    else
      let i2 ← callIndexOf message "ENETUNREACH"
      if i2 > -1 then pure true
      else
        let i3 ← callIndexOf message "EAI_AGAIN"
        pure (decide (i3 > -1))
  else pure false

/-- The condition `err.code && (err.code === "ECONNABORTED" || err.code ===
"ECONNREFUSED")`, as a truth value. -/
def codeCond (err : JSVal) : Except JSVal Bool := do
  let code ← getProp err "code"
  if code.truthy then
    pure (code.strictEqStr "ECONNABORTED" || code.strictEqStr "ECONNREFUSED")
  else pure false

/-- The body of the `try` block of `decodeError` in `src/util/route-utils.js`. -/
def decodeErrorTry (err : JSVal) : Except JSVal Decoded := do
  let c1 ← fullNodeCond err
  if c1.truthy then
    let response ← getProp err "response"
    let data ← getProp response "data"
    let error ← getProp data "error"
    let message ← getProp error "message"
    pure { msg := message, status := .num 400 }
  else
    let c2 ← insightCond err
    if c2.truthy then
      let response ← getProp err "response"
      let data ← getProp response "data"
      let status ← getProp response "status"
      pure { msg := data, status := status }
    else
      let c3 ← networkCond err
      if c3 then pure { msg := .str networkErrorMsg, status := .num 503 }
      else
        let c4 ← codeCond err
        if c4 then pure { msg := .str networkErrorMsg, status := .num 503 }
        else pure { msg := .bool false, status := .num 500 }

/-- The method `decodeError` of `src/util/route-utils.js`: the `try` block, and the
`catch` block that logs and returns the default. -/
def decodeError (err : JSVal) : Except JSVal Decoded :=
  match decodeErrorTry err with
  | .ok d => .ok d
  | .error _ => .ok { msg := .bool false, status := .num 500 }

/-- The condition `err.message && err.message.indexOf("ENOTFOUND") > -1` of
`src/routes/v2/route-utils.js`. -/
def networkCondV2 (err : JSVal) : Except JSVal Bool := do
  let message ← getProp err "message"
  if message.truthy then
    let i1 ← callIndexOf message "ENOTFOUND"
    pure (decide (i1 > -1))
  else pure false

/-- The body of the `try` block of `decodeError` in `src/routes/v2/route-utils.js`. -/
def decodeErrorV2Try (err : JSVal) : Except JSVal Decoded := do
  let c1 ← fullNodeCond err
  if c1.truthy then
    let response ← getProp err "response"
    let data ← getProp response "data"
    let error ← getProp data "error"
    let message ← getProp error "message"
    pure { msg := message, status := .num 400 }
  else
    let c3 ← networkCondV2 err
    if c3 then pure { msg := .str networkErrorMsgV2, status := .num 503 }
    else pure { msg := .bool false, status := .num 500 }

/-- The function `decodeError` of `src/routes/v2/route-utils.js`. -/
def decodeErrorV2 (err : JSVal) : Except JSVal Decoded :=
  match decodeErrorV2Try err with
  | .ok d => .ok d
  | .error _ => .ok { msg := .bool false, status := .num 500 }

mutual
/-- JavaScript `ToString`, as a template literal applies it to an interpolated value. -/
def toStr : JSVal → String
  | .undefined => "undefined"
  | .null => "null"
  | .bool b => if b then "true" else "false"
  | .num n => toString n
  | .str s => s
  | .arr items => joinStr items
  | .obj _ => "[object Object]"
/-- The method `Array.prototype.join` with the default separator: `undefined` and `null`
elements render as the empty string. -/
def joinStr : List JSVal → String
  | [] => ""
  | x :: rest =>
    (match x with
      | .undefined => ""
      | .null => ""
      | .bool b => toStr (.bool b)
      | .num n => toStr (.num n)
      | .str s => s
      | .arr items => joinStr items
      | .obj _ => "[object Object]") ++
    (match rest with
      | [] => ""
      | _ :: _ => "," ++ joinStr rest)
end

/-- White space that the string-to-number conversion strips. -/
def isJsSpace (c : Char) : Bool :=
  c == ' ' || c == '\t' || c == '\n' || c == '\r'

/-- Value of a non-empty run of decimal digits. -/
def digitsValue : List Char → Nat → Option Nat
  | [], acc => some acc
  | c :: cs, acc => if c.isDigit then digitsValue cs (acc * 10 + (c.toNat - 48)) else none

/-- JavaScript `ToNumber` on a string, for the integer literals of this model: blank
strings convert to `0`, an optionally signed run of decimal digits to its value, and
every other string to `NaN` (`none`).  Fractions, exponents and radix literals
(`2.5`, `1e1`, `0x10`) are outside the integer model of numbers: JavaScript reads a
number from them, this function gives `NaN`. -/
def strToNumber (s : String) : Option Int :=
  let cs := ((s.data.dropWhile isJsSpace).reverse.dropWhile isJsSpace).reverse
  match cs with
  | [] => some 0
  | '-' :: d :: ds => (digitsValue (d :: ds) 0).map (fun n => - (n : Int))
  | '+' :: d :: ds => (digitsValue (d :: ds) 0).map (fun n => (n : Int))
  | d :: ds => (digitsValue (d :: ds) 0).map (fun n => (n : Int))

/-- JavaScript `ToNumber`; `none` is `NaN`. -/
def toNumber : JSVal → Option Int
  | .undefined => none
  | .null => some 0
  | .bool b => some (if b then 1 else 0)
  | .num n => some n
  | .str s => strToNumber s
  | .arr items => strToNumber (joinStr items)
  | .obj _ => none

/-- The comparison `v <= n` against a number: false when `v` converts to `NaN`. -/
def jsLessEq (v : JSVal) (n : Int) : Bool :=
  match toNumber v with
  | some m => decide (m ≤ n)
  | none => false

/-- The constant `FREEMIUM_INPUT_SIZE` of `validateArraySize`. -/
def FREEMIUM_INPUT_SIZE : Int := 20

/-- The constant `PRO_INPUT_SIZE` of `validateArraySize`. -/
def PRO_INPUT_SIZE : Int := 20

/-- The method `validateArraySize(req, array)` of `src/util/route-utils.js`. -/
def validateArraySize (req array : JSVal) : Except JSVal Bool := do
  let locals ← getProp req "locals"
  let pro ← if locals.truthy then getProp locals "proLimit" else pure locals
  if pro.truthy then
    let len ← getProp array "length"
    if jsLessEq len PRO_INPUT_SIZE then pure true else pure false
  else
    let len ← getProp array "length"
    if jsLessEq len FREEMIUM_INPUT_SIZE then pure true else pure false

/-- The functions the handlers call on the object `routeUtils`: `decodeError` and the
array guard `validateArraySize`.  The handlers are stated over any such object;
`loadedRouteUtils` is the one `require("./route-utils")` yields in the sources. -/
structure RouteUtils where
  decodeError : JSVal → Except JSVal Decoded
  validateArraySize : JSVal → JSVal → Except JSVal Bool

/-- The `decodeError` and the guard of `src/util/route-utils.js`, put together as a
`routeUtils` object.  No route file under `src/routes/v2` loads that file (it exports a
class and has no `setEnvVars`): this object tells what a handler does with the newer
`decodeError` and an array guard in place. -/
def utilRouteUtils : RouteUtils :=
  { decodeError := decodeError, validateArraySize := validateArraySize }

/-- The `decodeError` of `src/routes/v2/route-utils.js` with the guard of
`src/util/route-utils.js` added to it.  This is not the module the route files load,
which has no guard (see `loadedRouteUtils`): it tells what a handler does once the guard
it calls exists. -/
def v2RouteUtils : RouteUtils :=
  { decodeError := decodeErrorV2, validateArraySize := validateArraySize }

/-- The module `src/routes/v2/route-utils.js`, which `require("./route-utils")` yields
in `block.ts`, `mining.ts` and `slp.ts`.  It exports `validateNetwork`, `setEnvVars` and
`decodeError`, and no `validateArraySize`: the call
`routeUtils.validateArraySize(req, array)` of the bulk block handlers finds `undefined`
in the place of a function and throws a `TypeError`. -/
def loadedRouteUtils : RouteUtils :=
  { decodeError := decodeErrorV2,
    validateArraySize := fun _ _ =>
      .error (typeError "routeUtils.validateArraySize is not a function") }

/-- What a handler sends: `res.status(status)` and `res.json(body)`. -/
structure Response where
  status : JSVal
  body : JSVal

/-- The surroundings of a block route handler: the environment variable
`BITCOINCOM_BASEURL`, the outcome of `axios.get(url)` for each URL (a fulfilled
response or the rejection reason), and `util.inspect`. -/
structure Env where
  baseUrl : String
  axiosGet : String → Except JSVal JSVal
  inspect : JSVal → String

/-- The URL a block lookup requests: the template string
`BITCOINCOM_BASEURL` followed by `block/` and the hash. -/
def blockUrl (env : Env) (hash : JSVal) : String :=
  env.baseUrl ++ "block/" ++ toStr hash

/-- The body `{ error: m }`. -/
def errorBody (m : JSVal) : JSVal := .obj [("error", m)]

/-- The validation loop of `detailsByHashBulk`: the first element whose `length` is not
`64`, if there is one.  Reading `length` of `undefined` or `null` throws. -/
def firstInvalidHash : List JSVal → Except JSVal (Option JSVal)
  | [] => .ok none
  | thisHash :: rest =>
    match getProp thisHash "length" with
    | .error e => .error e
    | .ok len => if len.strictEqNum 64 then firstInvalidHash rest else .ok (some thisHash)

/-- All rejection reasons in a list of settled promises, in input order. -/
def rejections : List (Except JSVal JSVal) → List JSVal
  | [] => []
  | .ok _ :: rest => rejections rest
  | .error e :: rest => e :: rejections rest

/-- All fulfilled values in a list of settled promises, in input order. -/
def fulfilments : List (Except JSVal JSVal) → List JSVal
  | [] => []
  | .ok v :: rest => v :: fulfilments rest
  | .error _ :: rest => fulfilments rest

/-- The call `axios.all(promises)`, which is `Promise.all`: fulfilled with the values in
input order when every promise is fulfilled, and otherwise rejected with the reason of
the promise that rejects first in time.  Which one that is depends on the timing of the
upstream calls; `pick` selects it. -/
def axiosAll (pick : Nat) (settled : List (Except JSVal JSVal)) : Except JSVal (List JSVal) :=
  match rejections settled with
  | [] => .ok (fulfilments settled)
  | e :: es => .error ((e :: es).getD (pick % (e :: es).length) e)

/-- The step `axiosResult.map(x => x.data)`. -/
def extractData : List JSVal → Except JSVal (List JSVal)
  | [] => .ok []
  | x :: rest =>
    match getProp x "data" with
    | .error e => .error e
    | .ok d =>
      match extractData rest with
      | .error e => .error e
      | .ok ds => .ok (d :: ds)

/-- The `catch` block of `detailsByHashBulk` (the same text as in `detailsByHashSingle`
and `detailsByHeightBulk`): the decoded message if there is one, else 404 for an
upstream 404, else 500 with a rendering of the failure. -/
def errorCascade (ru : RouteUtils) (env : Env) (error : JSVal) : Except JSVal Response := do
  let d ← ru.decodeError error
  if d.msg.truthy then
    pure { status := d.status, body := errorBody d.msg }
  else
    let response ← getProp error "response"
    let notFound ←
      if response.truthy then
        (getProp response "status").map (fun s => s.strictEqNum 404)
      else pure false
    if notFound then
      pure { status := .num 404, body := errorBody (.str "Not Found") }
    else
      pure { status := .num 500, body := errorBody (.str (env.inspect error)) }

/-- The `try` block of `detailsByHashBulk` in `src/routes/v2/block.ts`, together with
the URLs requested from the indexing service while it ran. -/
def detailsByHashBulkTry (ru : RouteUtils) (env : Env) (pick : Nat) (req : JSVal) :
    Except JSVal Response × List String :=
  match getProp req "body" >>= fun body => getProp body "hashes" with
  | .error e => (.error e, [])
  | .ok hashes =>
    match hashes with
    | .arr items =>
      match ru.validateArraySize req hashes with
      | .error e => (.error e, [])
      | .ok false => (.ok { status := .num 429, body := errorBody (.str "Array too large.") }, [])
      | .ok true =>
        match firstInvalidHash items with
        | .error e => (.error e, [])
        | .ok (some thisHash) =>
          (.ok { status := .num 400,
                 body := errorBody (.str
                   ("Invalid hash. Double check your hash is valid: " ++ toStr thisHash)) }, [])
        | .ok none =>
          let urls := items.map (blockUrl env)
          (axiosAll pick (urls.map env.axiosGet) >>= fun axiosResult =>
            extractData axiosResult >>= fun result =>
              pure { status := .num 200, body := .arr result }, urls)
    | _ =>
      (.ok { status := .num 400,
             body := errorBody (.str
               "hashes needs to be an array. Use GET for single address.") }, [])

/-- The handler `detailsByHashBulk`: the response it sends, or the value it rejects with
when the `catch` block itself throws. -/
def detailsByHashBulk (ru : RouteUtils) (env : Env) (pick : Nat) (req : JSVal) :
    Except JSVal Response :=
  match (detailsByHashBulkTry ru env pick req).1 with
  | .ok r => .ok r
  | .error error => errorCascade ru env error

/-- The URLs `detailsByHashBulk` requests from the indexing service. -/
def detailsByHashBulkCalls (ru : RouteUtils) (env : Env) (pick : Nat) (req : JSVal) :
    List String :=
  (detailsByHashBulkTry ru env pick req).2

/-- The answer of the 503 branches of `decodeError` in `src/util/route-utils.js`. -/
def networkAnswer : Decoded := { msg := .str networkErrorMsg, status := .num 503 }

/-- The answer of the 503 branch of `decodeError` in `src/routes/v2/route-utils.js`. -/
def networkAnswerV2 : Decoded := { msg := .str networkErrorMsgV2, status := .num 503 }

/-- The default answer of `decodeError`: `{ msg: false, status: 500 }`. -/
def defaultAnswer : Decoded := { msg := .bool false, status := .num 500 }

/-- The message contains the marker, in the sense of the test
`message.indexOf(marker) > -1`: a string that has the marker as a substring, or an
array that has the marker as an element. -/
def containsMarker (message : JSVal) (marker : String) : Bool :=
  match message with
  | .str s => decide (strIndexOf s marker > -1)
  | .arr items => decide (arrIndexOfFrom marker items 0 > -1)
  | _ => false

/-- The message is one `indexOf` can be called on, or is absent: falsy, a string or an
array. -/
def messageWellTyped (message : JSVal) : Bool :=
  !message.truthy || message.isString || message.isArray

/-- A failure for an upstream 404 whose JSON body has no nested `error.message`, as the
mocked reply `reply(404, { statusText: "Not Found" })` of `test/v2/block.js` produces. -/
def notFoundFailure : JSVal :=
  .obj [("message", .str "Request failed with status code 404"),
        ("response", .obj [("status", .num 404),
                           ("data", .obj [("statusText", .str "Not Found")])])]

/-- A failure whose response body is `{ error: { message: "" } }`. -/
def emptyMessageFailure : JSVal :=
  .obj [("message", .str "Request failed with status code 500"),
        ("response", .obj [("status", .num 500),
                           ("data", .obj [("error", .obj [("message", .str "")])])])]

/-- A failure whose response body is `{ error: { message: m } }`, with a DNS marker in
its own message and a connection-refused code. -/
def fullNodeFailure (m : String) : JSVal :=
  .obj [("message", .str "getaddrinfo ENOTFOUND fakeurl"),
        ("code", .str "ECONNREFUSED"),
        ("response", .obj [("status", .num 500),
                           ("data", .obj [("error", .obj [("message", .str m)])])])]

/-- A failure with a text response body, a DNS marker in its message and a
connection-refused code. -/
def insightFailure : JSVal :=
  .obj [("message", .str "getaddrinfo ENOTFOUND fakeurl"),
        ("code", .str "ECONNREFUSED"),
        ("response", .obj [("status", .num 404), ("data", .str "Not found")])]

/-- A failure to resolve the upstream host: no response, a DNS marker in the message. -/
def dnsFailure : JSVal :=
  .obj [("message", .str "getaddrinfo ENOTFOUND fakeurl fakeurl:80"),
        ("code", .str "ENOTFOUND")]

/-- A failure that matches no branch: no response, no marker, no code. -/
def unknownFailure : JSVal :=
  .obj [("message", .str "socket hang up")]

/-- A block hash of 64 hexadecimal digits. -/
def exampleHashA : String :=
  "00000000000000645dec6503d3f5eafb0d2537a7a28f181d721dec7c44154c79"

/-- Another block hash of 64 hexadecimal digits. -/
def exampleHashB : String :=
  "000000000000000002e63058c023a9a1de233554f28c7b21380b6c9003f36a81"

/-- An indexing service that answers every lookup with status 200 and a payload naming
the URL it was asked for. -/
def exampleEnv : Env :=
  { baseUrl := "http://fakeurl/api/",
    axiosGet := fun url => .ok (.obj [("status", .num 200), ("data", .obj [("url", .str url)])]),
    inspect := fun _ => "[object]" }

/-- A bulk request for two block hashes. -/
def exampleBulkRequest : JSVal :=
  .obj [("body", .obj [("hashes", .arr [.str exampleHashA, .str exampleHashB])])]

/-- An upstream call a handler issues: `axios.get(url)` to the indexing service,
`BitboxHTTP(requestConfig)` to the full node, or `isValidSlpTxid(txid)` to the token
validator. -/
inductive UpstreamCall where
  | get (url : String) : UpstreamCall
  | rpc (config : JSVal) : UpstreamCall
  | validate (txid : JSVal) : UpstreamCall

/-- The full node behind `BitboxHTTP`, with the credentials `setEnvVars` reads from the
environment.  `send atCall atEnd` is the outcome of `BitboxHTTP(requestConfig)`: a
fulfilled response or the rejection reason.  The request configuration is one object
that the work units of a bulk request share, so the outcome is given as a function of
the content of that object when the call is made (`atCall`) and of its content once the
handler has constructed all its work units (`atEnd`). -/
structure FullNode where
  username : JSVal
  password : JSVal
  send : JSVal → JSVal → Except JSVal JSVal

/-- The object `requestConfig` of `setEnvVars`, after `data.id`, `data.method` and
`data.params` are assigned. -/
def rpcConfig (node : FullNode) (method : String) (params : List JSVal) : JSVal :=
  .obj [("method", .str "post"),
        ("auth", .obj [("username", node.username), ("password", node.password)]),
        ("data", .obj [("jsonrpc", .str "1.0"), ("id", .str method),
                       ("method", .str method), ("params", .arr params)])]

/-- Value of a character as a digit in the given radix (10 or 16). -/
def digitIn (radix : Nat) (c : Char) : Option Nat :=
  if c.isDigit then some (c.toNat - 48)
  else if radix = 16 ∧ 'a'.toNat ≤ c.toNat ∧ c.toNat ≤ 'f'.toNat then some (c.toNat - 87)
  else if radix = 16 ∧ 'A'.toNat ≤ c.toNat ∧ c.toNat ≤ 'F'.toNat then some (c.toNat - 55)
  else none

/-- Value of the longest run of digits a character list starts with, `none` when it
starts with no digit. -/
def leadingDigits (radix : Nat) : List Char → Option Nat → Option Nat
  | [], acc => acc
  | c :: cs, acc =>
    match digitIn radix c with
    | some d => leadingDigits radix cs (some (acc.getD 0 * radix + d))
    | none => acc

/-- The magnitude `parseInt` reads after the sign: hexadecimal after `0x` or `0X`,
decimal otherwise. -/
def parseMagnitude : List Char → Option Nat
  | '0' :: 'x' :: cs => leadingDigits 16 cs none
  | '0' :: 'X' :: cs => leadingDigits 16 cs none
  | cs => leadingDigits 10 cs none

/-- The built-in `parseInt(v)` without a radix: the value is converted to a string,
leading white space is skipped, and an optionally signed integer literal is read;
`none` is `NaN`. -/
def parseInt (v : JSVal) : Option Int :=
  match (toStr v).data.dropWhile isJsSpace with
  | '-' :: cs => (parseMagnitude cs).map (fun n => - (n : Int))
  | '+' :: cs => (parseMagnitude cs).map (fun n => (n : Int))
  | cs => (parseMagnitude cs).map (fun n => (n : Int))

/-- The number `parseInt(v)` as it stands in a request: `NaN` is serialised as
`null`.  Numbers are unbounded integers written out in full; for a number from `1e21`
on, or one a double cannot hold exactly, JavaScript gives another value. -/
def parseIntValue (v : JSVal) : JSVal :=
  match parseInt v with
  | some n => .num n
  | none => .null

/-- The `catch` block of `detailsByHeightSingle`, `getMiningInfo` and
`getNetworkHashPS` (and of `validateBulk`): the decoded message if there is one, else
500 with a rendering of the failure.  It has no 404 step. -/
def errorCascadeNode (ru : RouteUtils) (env : Env) (err : JSVal) : Except JSVal Response := do
  let d ← ru.decodeError err
  if d.msg.truthy then
    pure { status := d.status, body := errorBody d.msg }
  else
    pure { status := .num 500, body := errorBody (.str (env.inspect err)) }

/-- The `try` block of `detailsByHashSingle` in `src/routes/v2/block.ts`, given the
outcome of reading `req.params.hash`, together with the upstream calls issued.  On
success `res.status` is not called: the status is the default of an Express response,
200. -/
def detailsByHashSingleTry (env : Env) (hashRead : Except JSVal JSVal) :
    Except JSVal Response × List UpstreamCall :=
  match hashRead with
  | .error e => (.error e, [])
  | .ok hash =>
    if !hash.truthy || hash.strictEqStr "" then
      (.ok { status := .num 400, body := errorBody (.str "hash must not be empty") }, [])
    else
      (env.axiosGet (blockUrl env hash) >>= fun response =>
        getProp response "data" >>= fun parsed =>
          pure { status := .num 200, body := parsed }, [.get (blockUrl env hash)])

/-- The handler `detailsByHashSingle`, for a given outcome of reading
`req.params.hash`. -/
def detailsByHashSingleOn (ru : RouteUtils) (env : Env) (hashRead : Except JSVal JSVal) :
    Except JSVal Response :=
  match (detailsByHashSingleTry env hashRead).1 with
  | .ok r => .ok r
  | .error error => errorCascade ru env error

/-- The read `req.params.hash`. -/
def readParam (req : JSVal) (name : String) : Except JSVal JSVal :=
  getProp req "params" >>= fun params => getProp params name

/-- The handler `detailsByHashSingle`. -/
def detailsByHashSingle (ru : RouteUtils) (env : Env) (req : JSVal) : Except JSVal Response :=
  detailsByHashSingleOn ru env (readParam req "hash")

/-- The upstream calls `detailsByHashSingle` issues. -/
def detailsByHashSingleCalls (env : Env) (req : JSVal) : List UpstreamCall :=
  (detailsByHashSingleTry env (readParam req "hash")).2

/-- The `try` block of `detailsByHeightSingle` up to the call of `detailsByHashSingle`:
the response it sends itself, or the block hash it hands on (`Sum.inr`), together with
the upstream calls issued. -/
def detailsByHeightSingleTry (node : FullNode) (req : JSVal) :
    Except JSVal (Response ⊕ JSVal) × List UpstreamCall :=
  match readParam req "height" with
  | .error e => (.error e, [])
  | .ok height =>
    if !height.truthy || height.strictEqStr "" then
      (.ok (.inl { status := .num 400,
                   body := errorBody (.str "height must not be empty") }), [])
    else
      let requestConfig := rpcConfig node "getblockhash" [parseIntValue height]
      (node.send requestConfig requestConfig >>= fun response =>
        getProp response "data" >>= fun data =>
          getProp data "result" >>= fun hash => pure (.inr hash), [.rpc requestConfig])

/-- The handler `detailsByHeightSingle`: a failure of its own `try` block goes to its
own `catch` block, which has no 404 step; after the block hash is stored in
`req.params.hash` the answer is that of `detailsByHashSingle`. -/
def detailsByHeightSingle (ru : RouteUtils) (env : Env) (node : FullNode) (req : JSVal) :
    Except JSVal Response :=
  match (detailsByHeightSingleTry node req).1 with
  | .ok (.inl r) => .ok r
  | .ok (.inr hash) => detailsByHashSingleOn ru env (.ok hash)
  | .error err => errorCascadeNode ru env err

/-- The upstream calls `detailsByHeightSingle` issues. -/
def detailsByHeightSingleCalls (env : Env) (node : FullNode) (req : JSVal) :
    List UpstreamCall :=
  match detailsByHeightSingleTry node req with
  | (.ok (.inr hash), calls) => calls ++ (detailsByHashSingleTry env (.ok hash)).2
  | (_, calls) => calls

/-- The validation loop of `detailsByHeightBulk`: is some element falsy or the empty
string? -/
def anyEmptyHeight : List JSVal → Bool
  | [] => false
  | thisHeight :: rest =>
    if !thisHeight.truthy || thisHeight.strictEqStr "" then true else anyEmptyHeight rest

/-- One work unit of `detailsByHeightBulk`: the block hash from the full node, then the
block from the indexing service. -/
def heightWorkUnit (env : Env) (node : FullNode) (atCall atEnd : JSVal) :
    Except JSVal JSVal :=
  node.send atCall atEnd >>= fun response =>
    getProp response "data" >>= fun data =>
      getProp data "result" >>= fun hash =>
        env.axiosGet (blockUrl env hash) >>= fun axiosResult =>
          getProp axiosResult "data"

/-- The lookup a work unit of `detailsByHeightBulk` sends to the indexing service, if
its full-node call yields a block hash. -/
def heightWorkUnitGet (env : Env) (node : FullNode) (atCall atEnd : JSVal) :
    List UpstreamCall :=
  match node.send atCall atEnd >>= fun response =>
      getProp response "data" >>= fun data => getProp data "result" with
  | .ok hash => [.get (blockUrl env hash)]
  | .error _ => []

/-- The content of the shared `requestConfig` right after the work unit of a height has
assigned `data.params`. -/
def heightConfig (node : FullNode) (height : JSVal) : JSVal :=
  rpcConfig node "getblockhash" [parseIntValue height]

/-- The content of the shared `requestConfig` once all work units are constructed: the
assignments of the last work unit stand; with no work unit it is as `setEnvVars`
returned it. -/
def finalHeightConfig (node : FullNode) (heights : List JSVal) : JSVal :=
  match heights.getLast? with
  | some height => heightConfig node height
  | none =>
    .obj [("method", .str "post"),
          ("auth", .obj [("username", node.username), ("password", node.password)]),
          ("data", .obj [("jsonrpc", .str "1.0")])]

/-- The `try` block of `detailsByHeightBulk` in `src/routes/v2/block.ts`, together with
the upstream calls issued. -/
def detailsByHeightBulkTry (ru : RouteUtils) (env : Env) (node : FullNode) (pick : Nat)
    (req : JSVal) : Except JSVal Response × List UpstreamCall :=
  match getProp req "body" >>= fun body => getProp body "heights" with
  | .error e => (.error e, [])
  | .ok heights =>
    match heights with
    | .arr items =>
      match ru.validateArraySize req heights with
      | .error e => (.error e, [])
      | .ok false => (.ok { status := .num 429, body := errorBody (.str "Array too large.") }, [])
      | .ok true =>
        if anyEmptyHeight items then
          (.ok { status := .num 400, body := errorBody (.str "height must not be empty") }, [])
        else
          let atEnd := finalHeightConfig node items
          let settled := items.map (fun height =>
            heightWorkUnit env node (heightConfig node height) atEnd)
          (axiosAll pick settled >>= fun result =>
            pure { status := .num 200, body := .arr result },
           items.map (fun height => UpstreamCall.rpc (heightConfig node height)) ++
             (items.map (fun height =>
               heightWorkUnitGet env node (heightConfig node height) atEnd)).flatten)
    | _ =>
      (.ok { status := .num 400,
             body := errorBody (.str
               "heights needs to be an array. Use GET for single height.") }, [])

/-- The handler `detailsByHeightBulk`. -/
def detailsByHeightBulk (ru : RouteUtils) (env : Env) (node : FullNode) (pick : Nat)
    (req : JSVal) : Except JSVal Response :=
  match (detailsByHeightBulkTry ru env node pick req).1 with
  | .ok r => .ok r
  | .error error => errorCascade ru env error

/-- The upstream calls `detailsByHeightBulk` issues. -/
def detailsByHeightBulkCalls (ru : RouteUtils) (env : Env) (node : FullNode) (pick : Nat)
    (req : JSVal) : List UpstreamCall :=
  (detailsByHeightBulkTry ru env node pick req).2

/-- The `try` block of `getMiningInfo` in `src/routes/v2/mining.ts`; `res.status` is
not called on success. -/
def getMiningInfoTry (node : FullNode) : Except JSVal Response :=
  let requestConfig := rpcConfig node "getmininginfo" []
  node.send requestConfig requestConfig >>= fun response =>
    getProp response "data" >>= fun data =>
      getProp data "result" >>= fun result => pure { status := .num 200, body := result }

/-- The handler `getMiningInfo`. -/
def getMiningInfo (ru : RouteUtils) (env : Env) (node : FullNode) : Except JSVal Response :=
  match getMiningInfoTry node with
  | .ok r => .ok r
  | .error err => errorCascadeNode ru env err

/-- The `try` block of `getNetworkHashPS` in `src/routes/v2/mining.ts`. -/
def getNetworkHashPSTry (node : FullNode) (req : JSVal) : Except JSVal Response :=
  getProp req "query" >>= fun query =>
    getProp query "nblocks" >>= fun qn =>
      let nblocks := if qn.truthy then parseIntValue qn else .num 120
      getProp query "height" >>= fun qh =>
        let height := if qh.truthy then parseIntValue qh else .num (-1)
        let requestConfig := rpcConfig node "getnetworkhashps" [nblocks, height]
        node.send requestConfig requestConfig >>= fun response =>
          getProp response "data" >>= fun data =>
            getProp data "result" >>= fun result =>
              pure { status := .num 200, body := result }

/-- The handler `getNetworkHashPS`. -/
def getNetworkHashPS (ru : RouteUtils) (env : Env) (node : FullNode) (req : JSVal) :
    Except JSVal Response :=
  match getNetworkHashPSTry node req with
  | .ok r => .ok r
  | .error err => errorCascadeNode ru env err

/-- One work unit of `validateBulk`: `{ txid, valid }` with `valid` the truth value of
the validator's answer; a failure of the validator is thrown on. -/
def validateWorkUnit (isValidSlpTxid : JSVal → Except JSVal JSVal) (txid : JSVal) :
    Except JSVal JSVal :=
  isValidSlpTxid txid >>= fun isValid =>
    pure (.obj [("txid", txid), ("valid", .bool isValid.truthy)])

/-- The `try` block of `validateBulk` in `src/routes/v2/slp.ts`, together with the
upstream calls issued.  The size limit is the constant `FREEMIUM_INPUT_SIZE = 20` of
`slp.ts`. -/
def validateBulkTry (isValidSlpTxid : JSVal → Except JSVal JSVal) (pick : Nat)
    (req : JSVal) : Except JSVal Response × List UpstreamCall :=
  match getProp req "body" >>= fun body => getProp body "txids" with
  | .error e => (.error e, [])
  | .ok txids =>
    match txids with
    | .arr items =>
      if (items.length : Int) > 20 then
        (.ok { status := .num 400,
               body := errorBody (.str ("Array too large. Max " ++ toStr (.num 20) ++ " txids")) },
         [])
      else
        (axiosAll pick (items.map (validateWorkUnit isValidSlpTxid)) >>= fun validateResults =>
          pure { status := .num 200, body := .arr (validateResults.filter JSVal.truthy) },
         items.map UpstreamCall.validate)
    | _ =>
      (.ok { status := .num 400, body := errorBody (.str "txids needs to be an array") }, [])

/-- The handler `validateBulk`. -/
def validateBulk (ru : RouteUtils) (env : Env)
    (isValidSlpTxid : JSVal → Except JSVal JSVal) (pick : Nat) (req : JSVal) :
    Except JSVal Response :=
  match (validateBulkTry isValidSlpTxid pick req).1 with
  | .ok r => .ok r
  | .error err => errorCascadeNode ru env err

/-- The upstream calls `validateBulk` issues. -/
def validateBulkCalls (isValidSlpTxid : JSVal → Except JSVal JSVal) (pick : Nat)
    (req : JSVal) : List UpstreamCall :=
  (validateBulkTry isValidSlpTxid pick req).2


/-- The failure signals upstream not-found, as the 404 step of a `catch` block tests it:
`error.response && error.response.status === 404`. -/
def signalsNotFound (f : JSVal) : Bool :=
  match getProp f "response" with
  | .ok response =>
    response.truthy &&
      (match getProp response "status" with
        | .ok status => status.strictEqNum 404
        | .error _ => false)
  | .error _ => false

/-- A failure as an HTTP client raises it: a value other than `undefined` and `null`
whose response, if it carries one, does not have the status 200. -/
def isUpstreamFailure (f : JSVal) : Bool :=
  match getProp f "response" with
  | .ok response =>
    !response.truthy ||
      (match getProp response "status" with
        | .ok status => !status.strictEqNum 200
        | .error _ => false)
  | .error _ => false

/-- The response of a `catch` block with the 404 step, for a decoded failure. -/
def cascadeResponse (env : Env) (d : Decoded) (f : JSVal) : Response :=
  if d.msg.truthy then { status := d.status, body := errorBody d.msg }
  else if signalsNotFound f then { status := .num 404, body := errorBody (.str "Not Found") }
  else { status := .num 500, body := errorBody (.str (env.inspect f)) }

/-- The response of a `catch` block without the 404 step, for a decoded failure. -/
def cascadeNodeResponse (env : Env) (d : Decoded) (f : JSVal) : Response :=
  if d.msg.truthy then { status := d.status, body := errorBody d.msg }
  else { status := .num 500, body := errorBody (.str (env.inspect f)) }

/-- An upstream 404 whose body is a full-node style error object. -/
def notFoundWithMessage : JSVal :=
  .obj [("message", .str "Request failed with status code 404"),
        ("response", .obj [("status", .num 404),
                           ("data", .obj [("error", .obj [("message", .str "Method not found")])])])]

/-- An upstream 404 with an empty body. -/
def notFoundEmpty : JSVal :=
  .obj [("message", .str "Request failed with status code 404"),
        ("response", .obj [("status", .num 404), ("data", .str "")])]

/-- An indexing service that answers every lookup with the given failure. -/
def failingEnv (f : JSVal) : Env :=
  { baseUrl := "http://fakeurl/api/",
    axiosGet := fun _ => .error f,
    inspect := fun _ => "[object]" }

/-- A full node that answers every call with the given failure. -/
def failingNode (f : JSVal) : FullNode :=
  { username := .str "fakeusername", password := .str "fakepassword",
    send := fun _ _ => .error f }

/-- A full node that answers every call with the block hash `exampleHashA`. -/
def exampleNode : FullNode :=
  { username := .str "fakeusername", password := .str "fakepassword",
    send := fun _ _ => .ok (.obj [("status", .num 200),
                                  ("data", .obj [("result", .str exampleHashA)])]) }

/-- A request for one block by hash. -/
def exampleHashRequest : JSVal :=
  .obj [("params", .obj [("hash", .str exampleHashA)])]

/-- A request for one block by height. -/
def exampleHeightRequest : JSVal :=
  .obj [("params", .obj [("height", .str "500000")])]

/-- A bulk request for two blocks by height. -/
def exampleHeightsRequest : JSVal :=
  .obj [("body", .obj [("heights", .arr [.num 500000, .num 500001])])]

/-- A request with an empty body, as `req.body = {}` in `test/v2/block.js`. -/
def emptyBodyRequest : JSVal := .obj [("body", .obj [])]

/-- A request with empty path parameters. -/
def emptyParamsRequest : JSVal := .obj [("params", .obj [])]

/-- An upstream not-found failure that `decodeError` does not classify otherwise: the
response status is 404, the response body has no nested `error.message`, the message
has no network marker and the code is not a connection code. -/
def plainNotFound (f : JSVal) : Prop :=
  ∃ r, getProp f "response" = .ok r ∧ getProp r "status" = .ok (.num 404) ∧
    (∀ data error message, getProp r "data" = .ok data → data.truthy = true →
      getProp data "error" = .ok error → error.truthy = true →
      getProp error "message" = .ok message → message.truthy = false) ∧
    (∀ message, getProp f "message" = .ok message →
      containsMarker message "ENOTFOUND" = false ∧
      containsMarker message "ENETUNREACH" = false ∧
      containsMarker message "EAI_AGAIN" = false) ∧
    (∀ code, getProp f "code" = .ok code →
      code ≠ .str "ECONNABORTED" ∧ code ≠ .str "ECONNREFUSED")

/-- An indexing service that knows `exampleHashA` and answers every other lookup with
the 404 failure `notFoundFailure`. -/
def flakyEnv : Env :=
  { baseUrl := "http://fakeurl/api/",
    axiosGet := fun url =>
      if url = "http://fakeurl/api/block/" ++ exampleHashA then
        .ok (.obj [("status", .num 200), ("data", .obj [("hash", .str exampleHashA)])])
      else .error notFoundFailure,
    inspect := fun _ => "[object]" }

/-- A request that carries two block hashes and two block heights. -/
def exampleMixedRequest : JSVal :=
  .obj [("body", .obj [("hashes", .arr [.str exampleHashA, .str exampleHashB]),
                       ("heights", .arr [.num 500000, .num 500001])])]

/-- The address functions of the BITBOX SDK that `validateNetwork` calls; each returns a
value or throws. -/
structure AddressSdk where
  toCashAddress : JSVal → Except JSVal JSVal
  isRegTestAddress : JSVal → Except JSVal JSVal
  isTestnetAddress : JSVal → Except JSVal JSVal
  isMainnetAddress : JSVal → Except JSVal JSVal

/-- The `try` block of `validateNetwork` in `src/util/route-utils.js`; `network` is the
environment variable `NETWORK`. -/
def validateNetworkTry (sdk : AddressSdk) (network addr : JSVal) : Except JSVal Bool :=
  if !network.truthy || network.strictEqStr "" then pure false
  else
    sdk.isRegTestAddress addr >>= fun addrIsRegTest =>
      if network.strictEqStr "regtest" && addrIsRegTest.truthy then pure true
      else
        sdk.isTestnetAddress addr >>= fun addrIsTest =>
          if network.strictEqStr "testnet" && addrIsTest.truthy then pure true
          else
            sdk.isMainnetAddress addr >>= fun addrIsMain =>
              if network.strictEqStr "mainnet" && addrIsMain.truthy then pure true
              else pure false

/-- The method `validateNetwork` of `src/util/route-utils.js`: the `catch` block logs
through `wlogger` and returns false. -/
def validateNetwork (sdk : AddressSdk) (network addr : JSVal) : Except JSVal Bool :=
  match validateNetworkTry sdk network addr with
  | .ok b => .ok b
  | .error _ => .ok false

/-- The `ReferenceError` thrown when an identifier that is not declared is read. -/
def referenceError (detail : String) : JSVal :=
  .obj [("name", .str "ReferenceError"), ("message", .str detail)]

/-- The `try` block of `validateNetwork` in `src/routes/v2/route-utils.js`. -/
def validateNetworkV2Try (sdk : AddressSdk) (network addr : JSVal) : Except JSVal Bool :=
  if !network.truthy || network.strictEqStr "" then pure false
  else
    sdk.toCashAddress addr >>= fun cashAddr =>
      sdk.isTestnetAddress cashAddr >>= fun addrIsTest =>
        if network.strictEqStr "testnet" && addrIsTest.truthy then pure true
        else
          sdk.isMainnetAddress cashAddr >>= fun addrIsMain =>
            if network.strictEqStr "mainnet" && addrIsMain.truthy then pure true
            else pure false

/-- The function `validateNetwork` of `src/routes/v2/route-utils.js`.  Its `catch` block
starts with `logger.error(...)`, and the file declares no `logger` (it is in strict
mode and requires only `axios`, `util` and the BITBOX SDK): the read of `logger` throws
a `ReferenceError`, so the `return false` after it is not reached. -/
def validateNetworkV2 (sdk : AddressSdk) (network addr : JSVal) : Except JSVal Bool :=
  match validateNetworkV2Try sdk network addr with
  | .ok b => .ok b
  | .error _ => .error (referenceError "logger is not defined")

/-- Assignment of a field in the field list of an object: the field is replaced where it
stands, or added at the end. -/
def assignIn : List (String × JSVal) → String → JSVal → List (String × JSVal)
  | [], k, v => [(k, v)]
  | (k0, v0) :: rest, k, v =>
    if k0 = k then (k, v) :: rest else (k0, v0) :: assignIn rest k v

/-- The assignment `o.k = v` on an object; the objects assigned to in the handlers are
the object literals of `setEnvVars`. -/
def assignField (o : JSVal) (k : String) (v : JSVal) : JSVal :=
  match o with
  | .obj fields => .obj (assignIn fields k v)
  | other => other

/-- The property `o.k` of a value that is neither `undefined` nor `null`. -/
def fieldOf (o : JSVal) (k : String) : JSVal :=
  match getProp o k with
  | .ok v => v
  | .error _ => .undefined

/-- The object `requestConfig` as `setEnvVars` returns it. -/
def setEnvVarsConfig (node : FullNode) : JSVal :=
  .obj [("method", .str "post"),
        ("auth", .obj [("username", node.username), ("password", node.password)]),
        ("data", .obj [("jsonrpc", .str "1.0")])]

/-- The three assignments `requestConfig.data.id = m`, `requestConfig.data.method = m`
and `requestConfig.data.params = params`, on the content of `requestConfig`. -/
def assignRequest (requestConfig : JSVal) (method : String) (params : List JSVal) : JSVal :=
  assignField requestConfig "data"
    (assignField
      (assignField (assignField (fieldOf requestConfig "data") "id" (.str method))
        "method" (.str method))
      "params" (.arr params))

/-- The assignments the work unit of one height of `detailsByHeightBulk` makes to the
`requestConfig` it shares with the other work units. -/
def heightWorkUnitAssign (requestConfig height : JSVal) : JSVal :=
  assignRequest requestConfig "getblockhash" [parseIntValue height]

/-- The content of the one `requestConfig` object of `detailsByHeightBulk` after the
work units of the given heights have been constructed, in order.  Every work unit hands
this same object to the full-node client. -/
def sharedConfigAfter (node : FullNode) (heights : List JSVal) : JSVal :=
  heights.foldl heightWorkUnitAssign (setEnvVarsConfig node)

/-- The `params` of a request configuration: `requestConfig.data.params`. -/
def paramsOf (requestConfig : JSVal) : JSVal :=
  fieldOf (fieldOf requestConfig "data") "params"

/-- Modelled from the spec: the raw-transaction cache `slpTxDb`, a key-value store of
the `level` package, which is not part of the sources.  It maps a transaction id (by its
string form) to the raw transaction stored for it; it may be closed, and a read or a
write may fail. -/
structure RawTxCache where
  isOpen : Bool
  entries : List (String × JSVal)
  getFault : Option JSVal
  putFault : Option JSVal

/-- The rejection of a read for a key the store does not hold. -/
def notFoundError : JSVal :=
  .obj [("name", .str "NotFoundError"), ("message", .str "Key not found in database")]

/-- The entry the cache holds for a transaction id. -/
def RawTxCache.entry (cache : RawTxCache) (txid : JSVal) : Option JSVal :=
  cache.entries.lookup (toStr txid)

/-- The read `slpTxDb.get(txid)`: the stored value, or a rejection when the read fails
or the key is not found. -/
def RawTxCache.get (cache : RawTxCache) (txid : JSVal) : Except JSVal JSVal :=
  match cache.getFault with
  | some e => .error e
  | none =>
    match cache.entry txid with
    | some rawTx => .ok rawTx
    | none => .error notFoundError

/-- The write `slpTxDb.put(txid, result)`: the cache with the entry set, or a rejection
when the write fails. -/
def RawTxCache.put (cache : RawTxCache) (txid result : JSVal) : Except JSVal RawTxCache :=
  match cache.putFault with
  | some e => .error e
  | none => .ok { cache with entries := (toStr txid, result) :: cache.entries }

/-- What one work unit of `getRawTransactionsFromNode` does: its outcome, the cache
after it, and the upstream calls it issued. -/
structure WorkUnitRun where
  outcome : Except JSVal JSVal
  cache : RawTxCache
  calls : List UpstreamCall

/-- One work unit of `getRawTransactionsFromNode` in `src/routes/v2/slp.ts` (the arrow
function of `txids.map`).  `atEnd` is the content of the shared `requestConfig` when the
client reads it. -/
def rawTxWorkUnit (node : FullNode) (atEnd : JSVal) (cache : RawTxCache) (txid : JSVal) :
    WorkUnitRun :=
  let cached : Option JSVal :=
    if cache.isOpen then
      match cache.get txid with
      | .ok rawTx => some rawTx
      | .error _ => none
    else none
  match cached with
  | some rawTx => { outcome := .ok rawTx, cache := cache, calls := [] }
  | none =>
    let requestConfig := rpcConfig node "getrawtransaction" [txid, .num 0]
    match node.send requestConfig atEnd >>= fun response =>
        getProp response "data" >>= fun data => getProp data "result" with
    | .error e => { outcome := .error e, cache := cache, calls := [.rpc requestConfig] }
    | .ok result =>
      let cache2 : RawTxCache :=
        if cache.isOpen then
          match cache.put txid result with
          | .ok c => c
          | .error _ => cache
        else cache
      { outcome := .ok result, cache := cache2, calls := [.rpc requestConfig] }

/-- The response object of a handler, as far as `res.json` goes: `json alreadySent
body` is what the call `res.json(body)` returns, or throws, given whether a response
has been sent before. -/
structure Res where
  json : Bool → JSVal → Except JSVal JSVal

/-- The error Express throws when a response is sent a second time. -/
def headersSentError : JSVal :=
  .obj [("code", .str "ERR_HTTP_HEADERS_SENT"),
        ("message", .str "Cannot set headers after they are sent to the client")]

/-- The response object of Express: the first `res.json` sends the body and returns the
response object; a further one throws. -/
def expressRes : Res :=
  { json := fun alreadySent _ =>
      if alreadySent then .error headersSentError
      else .ok (.obj [("headersSent", .bool true)]) }

/-- A response object whose `json` returns the body it is given and never throws. -/
def echoRes : Res :=
  { json := fun _ body => .ok body }

/-- The token functions `balancesForAddressByTokenID` calls on the SLP SDK:
`getTokenInformation(key)`, and the big-number expression
`amount.div(10 ** decimals).toString()`. -/
structure TokenSdk where
  getTokenInformation : String → Except JSVal JSVal
  formatBalance : JSVal → JSVal → Except JSVal JSVal

/-- The built-in `Object.keys` on a value that is neither `undefined` nor `null`. -/
def objectKeys : JSVal → List String
  | .obj fields => fields.map (fun kv => kv.1)
  | .arr items => (List.range items.length).map toString
  | .str s => (List.range (utf16Len s.data)).map toString
  | _ => []

/-- One work unit of `balancesForAddressByTokenID`: the balance entry of a token id. -/
def tokenWorkUnit (sdk : TokenSdk) (slpTokenBalances : JSVal) (key : String) :
    Except JSVal JSVal :=
  sdk.getTokenInformation key >>= fun tokenMetadata =>
    getProp slpTokenBalances key >>= fun amount =>
      getProp tokenMetadata "decimals" >>= fun decimals =>
        sdk.formatBalance amount decimals >>= fun balance =>
          pure (.obj [("tokenId", .str key), ("balance", balance),
                      ("decimalCount", decimals)])

/-- The outcome of a stretch of handler code that calls `res.json`: the value it ends
with or throws, and the bodies it has passed to `res.json`, in order (the first is the
response that is sent). -/
structure JsonRun where
  outcome : Except JSVal JSVal
  attempts : List JSVal

/-- The call `res.json(body)` after the given earlier calls. -/
def callJson (res : Res) (attempts : List JSVal) (body : JSVal) : JsonRun :=
  { outcome := res.json (!attempts.isEmpty) body, attempts := attempts ++ [body] }

/-- The loop `axiosResult.forEach(result => { if (result.tokenId ===
req.params.tokenId) return res.json(result) })`: the `return` leaves the callback, not
the loop and not the handler.  The outcome is `undefined` unless a call throws. -/
def forEachMatch (res : Res) (tokenId : JSVal) : List JSVal → List JSVal → JsonRun
  | [], attempts => { outcome := .ok .undefined, attempts := attempts }
  | result :: rest, attempts =>
    match getProp result "tokenId" with
    | .error e => { outcome := .error e, attempts := attempts }
    | .ok t =>
      let same : Bool :=
        match t with
        | .str key => tokenId.strictEqStr key
        | _ => false
      if same then
        match callJson res attempts result with
        | { outcome := .error e, attempts := a } => { outcome := .error e, attempts := a }
        | { outcome := .ok _, attempts := a } => forEachMatch res tokenId rest a
      else forEachMatch res tokenId rest attempts

/-- The message `balancesForAddressByTokenID` sends when there is no balance. -/
def noBalanceMsg : JSVal := .str "No balance for this address and tokenId"

/-- The `try` block of `balancesForAddressByTokenID` in `src/routes/v2/slp.ts` from the
fetched `balances` on (lines 512 to 537); `tokenId` is `req.params.tokenId`. -/
def balancesForAddressByTokenIDTry (res : Res) (sdk : TokenSdk) (pick : Nat)
    (balances tokenId : JSVal) : JsonRun :=
  match getProp balances "slpTokenBalances" with
  | .error e => { outcome := .error e, attempts := [] }
  | .ok slpTokenBalances =>
    if slpTokenBalances.truthy then
      match axiosAll pick ((objectKeys slpTokenBalances).map (tokenWorkUnit sdk slpTokenBalances)) with
      | .error e => { outcome := .error e, attempts := [] }
      | .ok axiosResult =>
        match forEachMatch res tokenId axiosResult [] with
        | { outcome := .error e, attempts := a } => { outcome := .error e, attempts := a }
        | { outcome := .ok _, attempts := a } => callJson res a noBalanceMsg
    else callJson res [] noBalanceMsg

/-- The `catch` block of `balancesForAddressByTokenID`. -/
def balancesForAddressByTokenIDCatch (ru : RouteUtils) (res : Res) (err : JSVal)
    (attempts : List JSVal) : JsonRun :=
  match ru.decodeError err with
  | .error e => { outcome := .error e, attempts := attempts }
  | .ok d =>
    if d.msg.truthy then callJson res attempts (errorBody d.msg)
    else
      match getProp err "message" with
      | .error e => { outcome := .error e, attempts := attempts }
      | .ok message =>
        callJson res attempts
          (errorBody (.str ("Error in /balance/:address/:tokenId: " ++ toStr message)))

/-- The handler `balancesForAddressByTokenID` from the fetched `balances` on: what it
returns or rejects with, and the bodies it passes to `res.json`. -/
def balancesForAddressByTokenID (ru : RouteUtils) (res : Res) (sdk : TokenSdk) (pick : Nat)
    (balances tokenId : JSVal) : JsonRun :=
  match balancesForAddressByTokenIDTry res sdk pick balances tokenId with
  | { outcome := .ok v, attempts := a } => { outcome := .ok v, attempts := a }
  | { outcome := .error err, attempts := a } =>
    balancesForAddressByTokenIDCatch ru res err a

/-- An address SDK whose every function throws. -/
def throwingSdk : AddressSdk :=
  { toCashAddress := fun _ => .error (.obj [("message", .str "Unsupported address format")]),
    isRegTestAddress := fun _ => .error (.obj [("message", .str "Unsupported address format")]),
    isTestnetAddress := fun _ => .error (.obj [("message", .str "Unsupported address format")]),
    isMainnetAddress := fun _ => .error (.obj [("message", .str "Unsupported address format")]) }

/-- An address SDK for which every address is a mainnet address. -/
def mainnetSdk : AddressSdk :=
  { toCashAddress := fun addr => .ok addr,
    isRegTestAddress := fun _ => .ok (.bool false),
    isTestnetAddress := fun _ => .ok (.bool false),
    isMainnetAddress := fun _ => .ok (.bool true) }

/-- An open cache with one entry, for `exampleHashA`. -/
def exampleCache : RawTxCache :=
  { isOpen := true, entries := [(exampleHashA, .str "0100beef")],
    getFault := none, putFault := none }

/-- A full node that answers every call with the raw transaction `0200cafe`. -/
def rawTxNode : FullNode :=
  { username := .str "fakeusername", password := .str "fakepassword",
    send := fun _ _ => .ok (.obj [("status", .num 200),
                                  ("data", .obj [("result", .str "0200cafe")])]) }

/-- A token SDK that knows every token, with 2 decimals and the balance text `1.5`. -/
def exampleTokenSdk : TokenSdk :=
  { getTokenInformation := fun _ => .ok (.obj [("decimals", .num 2)]),
    formatBalance := fun _ _ => .ok (.str "1.5") }

/-- Fetched balances of an address that holds the token `exampleHashA`. -/
def exampleBalances : JSVal :=
  .obj [("slpTokenBalances", .obj [(exampleHashA, .num 150)])]

/-- A bulk request of 25 empty strings, as `test/v2/block.js` builds it for the size
check. -/
def oversizedRequest : JSVal :=
  .obj [("body", .obj [("hashes", .arr (List.replicate 25 (.str "")))])]

/-- A bulk request with an empty array of hashes. -/
def emptyArrayRequest : JSVal :=
  .obj [("body", .obj [("hashes", .arr [])])]

/-- A bulk request for two heights of which the second is the number 0. -/
def zeroHeightRequest : JSVal :=
  .obj [("body", .obj [("heights", .arr [.num 500000, .num 0])])]

/-- The assignments one work unit of `getRawTransactionsFromNode` makes to the
`requestConfig` it shares with the other work units, given the content the object has
when the work unit gets to them.  A work unit that returns the cached transaction makes
none. -/
def rawTxAssign (cache : RawTxCache) (requestConfig txid : JSVal) : JSVal :=
  let cached : Option JSVal :=
    if cache.isOpen then
      match cache.get txid with
      | .ok rawTx => some rawTx
      | .error _ => none
    else none
  match cached with
  | some _ => requestConfig
  | none => assignRequest requestConfig "getrawtransaction" [txid, .num 0]

/-- A run of `getRawTransactionsFromNode`: what the returned promise settles to, the
calls made to the full node, and the content of the one `requestConfig` object once
every work unit has made its call. -/
structure RawTxRun where
  outcome : Except JSVal JSVal
  calls : List UpstreamCall
  requestConfig : JSVal

/-- The function `getRawTransactionsFromNode(txids)` of `src/routes/v2/slp.ts`.  One
`requestConfig` comes from `setEnvVars()` before `txids.map`; each work unit that is not
served from the cache assigns its fields on that object and hands the object to the
client, in the order of `txids`.  With the cache closed all of this happens while `map`
runs, before any client can send; with the cache open the work units go on after their
reads, and the content a client reads later is taken to be the one left by the last
work unit.  The cache reads all start while `map` runs, so every work unit reads the
cache as it was at the call; what the work units write to the cache is in
`rawTxWorkUnit`.  The outer `catch` rethrows. -/
def getRawTransactionsFromNode (node : FullNode) (cache : RawTxCache) (pick : Nat)
    (txids : List JSVal) : RawTxRun :=
  let atEnd := txids.foldl (rawTxAssign cache) (setEnvVarsConfig node)
  let runs := txids.map (rawTxWorkUnit node atEnd cache)
  { outcome := axiosAll pick (runs.map (fun run => run.outcome)) >>= fun results =>
      pure (.arr results),
    calls := (runs.map (fun run => run.calls)).flatten,
    requestConfig := atEnd }

/-- A cache that is not open: `slpTxDb.isOpen()` is false. -/
def closedCache : RawTxCache :=
  { isOpen := false, entries := [], getFault := none, putFault := none }

/-- A full node whose client serialises the request when it sends it, after the caller
has run on: it answers with the `params` the shared `requestConfig` holds then. -/
def lateReadingNode : FullNode :=
  { username := .str "fakeusername", password := .str "fakepassword",
    send := fun _ atEnd => .ok (.obj [("status", .num 200),
                                      ("data", .obj [("result", paramsOf atEnd)])]) }

/-! Lemmas and theorems. -/

theorem ok_bind {α β : Type} (a : α) (f : α → Except JSVal β) :
    (Except.ok a >>= f) = f a := rfl

theorem error_bind {α β : Type} (e : JSVal) (f : α → Except JSVal β) :
    ((Except.error e : Except JSVal α) >>= f) = Except.error e := rfl

theorem getProp_of_truthy {v : JSVal} (k : String) (h : v.truthy = true) :
    ∃ w, getProp v k = .ok w := by
  cases v <;> simp [getProp, truthy] at h ⊢

theorem utf16Len_pos_of_ne_nil {cs : List Char} (h : cs ≠ []) : utf16Len cs ≠ 0 := by
  cases cs with
  | nil => exact absurd rfl h
  | cons c rest =>
    simp only [utf16Len, List.map_cons, List.sum_cons, utf16Width]
    split <;> omega

theorem truthy_of_getProp {v w : JSVal} {k : String} (h : getProp v k = .ok w)
    (hw : w.truthy = true) : v.truthy = true := by
  cases v with
  | undefined => simp [getProp] at h
  | null => simp [getProp] at h
  | bool b => simp [getProp] at h; subst h; simp [truthy] at hw
  | num n => simp [getProp] at h; subst h; simp [truthy] at hw
  | arr items => simp [truthy]
  | obj fields => simp [truthy]
  | str s =>
    simp only [getProp, Except.ok.injEq] at h
    by_cases hs : s = ""
    · subst hs
      split at h <;> subst h <;> simp [truthy, utf16Len] at hw
    · simp [truthy, hs]

theorem fullNodeCond_eq {err response data error : JSVal}
    (hr : getProp err "response" = .ok response) (hd : getProp response "data" = .ok data)
    (he : getProp data "error" = .ok error) (hdt : data.truthy = true) :
    fullNodeCond err = if error.truthy then getProp error "message" else .ok error := by
  have hrt := truthy_of_getProp hd hdt
  simp [fullNodeCond, hr, hd, he, hdt, hrt, ok_bind, pure, Except.pure]

theorem insightCond_eq {err response : JSVal}
    (hr : getProp err "response" = .ok response) :
    insightCond err = if response.truthy then getProp response "data" else .ok response := by
  simp [insightCond, hr, ok_bind, pure, Except.pure]

theorem fullNodeCond_truthy {err c : JSVal} (h : fullNodeCond err = .ok c)
    (hc : c.truthy = true) :
    ∃ r d e, getProp err "response" = .ok r ∧ getProp r "data" = .ok d ∧
      getProp d "error" = .ok e ∧ getProp e "message" = .ok c := by
  unfold fullNodeCond at h
  cases hr : getProp err "response" with
  | error x => simp [hr, bind, Except.bind] at h
  | ok r =>
    simp only [hr, bind, Except.bind] at h
    by_cases hrt : r.truthy = true
    · simp only [hrt, if_true] at h
      cases hd : getProp r "data" with
      | error x => simp [hd] at h
      | ok d =>
        simp only [hd] at h
        by_cases hdt : d.truthy = true
        · simp only [hdt, if_true] at h
          cases he : getProp d "error" with
          | error x => simp [he] at h
          | ok e =>
            simp only [he] at h
            by_cases het : e.truthy = true
            · simp only [het, if_true] at h
              exact ⟨r, d, e, rfl, hd, he, h⟩
            · simp [het, pure, Except.pure] at h
              subst h; exact absurd hc het
        · simp [hdt, pure, Except.pure] at h
          subst h; exact absurd hc hdt
    · simp [hrt, pure, Except.pure] at h
      subst h; exact absurd hc hrt

theorem insightCond_truthy {err c : JSVal} (h : insightCond err = .ok c)
    (hc : c.truthy = true) :
    ∃ r, getProp err "response" = .ok r ∧ r.truthy = true ∧ getProp r "data" = .ok c := by
  unfold insightCond at h
  cases hr : getProp err "response" with
  | error x => simp [hr, bind, Except.bind] at h
  | ok r =>
    simp only [hr, bind, Except.bind] at h
    by_cases hrt : r.truthy = true
    · simp only [hrt, if_true] at h
      exact ⟨r, rfl, hrt, h⟩
    · simp [hrt, pure, Except.pure] at h
      subst h; exact absurd hc hrt

/-- The `try` block of `decodeError`, with the values it reads a second time replaced by
the values of the conditions that guard them. -/
theorem decodeErrorTry_eq (err : JSVal) :
    decodeErrorTry err =
      (fullNodeCond err >>= fun c1 =>
        if c1.truthy then .ok { msg := c1, status := .num 400 }
        else insightCond err >>= fun c2 =>
          if c2.truthy then
            getProp err "response" >>= fun r =>
              getProp r "status" >>= fun st => .ok { msg := c2, status := st }
          else networkCond err >>= fun c3 =>
            if c3 then .ok networkAnswer
            else codeCond err >>= fun c4 =>
              if c4 then .ok networkAnswer else .ok defaultAnswer) := by
  unfold decodeErrorTry
  cases h1 : fullNodeCond err with
  | error x => rfl
  | ok c1 =>
    simp only [ok_bind]
    by_cases hc1 : c1.truthy = true
    · obtain ⟨r, d, e, hr, hd, he, hm⟩ := fullNodeCond_truthy h1 hc1
      simp [hc1, hr, hd, he, hm, ok_bind, pure, Except.pure]
    · simp only [hc1]
      cases h2 : insightCond err with
      | error x => rfl
      | ok c2 =>
        simp only [ok_bind]
        by_cases hc2 : c2.truthy = true
        · obtain ⟨r, hr, hrt, hd⟩ := insightCond_truthy h2 hc2
          obtain ⟨st, hst⟩ := getProp_of_truthy "status" hrt
          simp [hc2, hr, hd, hst, ok_bind, pure, Except.pure]
        · simp only [hc2]
          rfl

theorem decodeErrorV2Try_eq (err : JSVal) :
    decodeErrorV2Try err =
      (fullNodeCond err >>= fun c1 =>
        if c1.truthy then .ok { msg := c1, status := .num 400 }
        else networkCondV2 err >>= fun c3 =>
          if c3 then .ok networkAnswerV2 else .ok defaultAnswer) := by
  unfold decodeErrorV2Try
  cases h1 : fullNodeCond err with
  | error x => rfl
  | ok c1 =>
    simp only [ok_bind]
    by_cases hc1 : c1.truthy = true
    · obtain ⟨r, d, e, hr, hd, he, hm⟩ := fullNodeCond_truthy h1 hc1
      simp [hc1, hr, hd, he, hm, ok_bind, pure, Except.pure]
    · simp only [hc1]
      rfl

theorem startsWith_iff (hay needle : List Char) :
    startsWith hay needle = true ↔ needle <+: hay := by
  induction hay generalizing needle with
  | nil => cases needle <;> simp [startsWith]
  | cons c cs ih =>
    cases needle with
    | nil => simp [startsWith]
    | cons p ps =>
      simp only [startsWith, Bool.and_eq_true, beq_iff_eq, ih, List.cons_prefix_cons]
      constructor
      · rintro ⟨h1, h2⟩; exact ⟨h1.symm, h2⟩
      · rintro ⟨h1, h2⟩; exact ⟨h1.symm, h2⟩

theorem indexOfFrom_nonneg_or (needle hay : List Char) (i : Nat) :
    indexOfFrom needle hay i = -1 ∨ 0 ≤ indexOfFrom needle hay i := by
  induction hay generalizing i with
  | nil => unfold indexOfFrom; split <;> simp
  | cons c cs ih =>
    unfold indexOfFrom
    split
    · right; exact Int.natCast_nonneg i
    · exact ih _

/-- The search finds the needle exactly when the needle is a contiguous part of the
text. -/
theorem indexOfFrom_found_iff (needle hay : List Char) (i : Nat) :
    indexOfFrom needle hay i > -1 ↔ needle <:+: hay := by
  induction hay generalizing i with
  | nil =>
    unfold indexOfFrom
    cases needle with
    | nil => simp [startsWith]; omega
    | cons p ps => simp [startsWith]
  | cons c cs ih =>
    unfold indexOfFrom
    rw [List.infix_cons_iff]
    by_cases hs : startsWith (c :: cs) needle = true
    · simp only [hs, if_true]
      constructor
      · intro _; exact Or.inl ((startsWith_iff _ _).1 hs)
      · intro _; have := Int.natCast_nonneg i; omega
    · simp only [hs, Bool.false_eq_true, if_false]
      rw [ih]
      constructor
      · intro h; exact Or.inr h
      · rintro (h | h)
        · exact absurd ((startsWith_iff _ _).2 h) hs
        · exact h

/-- The test `s.indexOf(marker) > -1` holds exactly when the marker is a substring. -/
theorem strIndexOf_found_iff (s marker : String) :
    strIndexOf s marker > -1 ↔ marker.data <:+: s.data :=
  indexOfFrom_found_iff marker.data s.data 0

theorem arrIndexOfFrom_found_iff (marker : String) (items : List JSVal) (i : Nat) :
    arrIndexOfFrom marker items i > -1 ↔ JSVal.str marker ∈ items := by
  induction items generalizing i with
  | nil => simp [arrIndexOfFrom]
  | cons x xs ih =>
    unfold arrIndexOfFrom
    by_cases hx : x.strictEqStr marker = true
    · simp only [hx, if_true]
      have hxe : x = JSVal.str marker := by
        cases x <;> simp [strictEqStr] at hx
        subst hx; rfl
      subst hxe
      simp
      have := Int.natCast_nonneg i; omega
    · simp only [hx, Bool.false_eq_true, if_false]
      rw [ih]
      have hne : JSVal.str marker ≠ x := by
        intro h; subst h; simp [strictEqStr] at hx
      simp [hne]

theorem callIndexOf_eq {message : JSVal} (marker : String)
    (hm : message.isString = true ∨ message.isArray = true) :
    ∃ i, callIndexOf message marker = .ok i ∧
      (decide (i > -1)) = containsMarker message marker := by
  cases message <;> simp [isString, isArray] at hm
  · exact ⟨_, rfl, rfl⟩
  · exact ⟨_, rfl, rfl⟩

theorem decodeErrorTry_msg {err : JSVal} {d : Decoded} (h : decodeErrorTry err = .ok d) :
    d.msg.truthy = true ∨ d = defaultAnswer := by
  rw [decodeErrorTry_eq] at h
  cases h1 : fullNodeCond err with
  | error x => simp [h1, error_bind] at h
  | ok c1 =>
    simp only [h1, ok_bind] at h
    by_cases hc1 : c1.truthy = true
    · simp only [hc1, if_true, Except.ok.injEq] at h
      subst h; exact Or.inl hc1
    · simp only [hc1, Bool.false_eq_true, if_false] at h
      cases h2 : insightCond err with
      | error x => simp [h2, error_bind] at h
      | ok c2 =>
        simp only [h2, ok_bind] at h
        by_cases hc2 : c2.truthy = true
        · simp only [hc2, if_true] at h
          cases hr : getProp err "response" with
          | error x => simp [hr, error_bind] at h
          | ok r =>
            simp only [hr, ok_bind] at h
            cases hs : getProp r "status" with
            | error x => simp [hs, error_bind] at h
            | ok st =>
              simp only [hs, ok_bind, Except.ok.injEq] at h
              subst h; exact Or.inl hc2
        · simp only [hc2, Bool.false_eq_true, if_false] at h
          cases h3 : networkCond err with
          | error x => simp [h3, error_bind] at h
          | ok c3 =>
            simp only [h3, ok_bind] at h
            cases c3 with
            | true =>
              simp only [if_true, Except.ok.injEq] at h
              subst h; left; simp [networkAnswer, truthy, networkErrorMsg]
            | false =>
              simp only [Bool.false_eq_true, if_false] at h
              cases h4 : codeCond err with
              | error x => simp [h4, error_bind] at h
              | ok c4 =>
                simp only [h4, ok_bind] at h
                cases c4 with
                | true =>
                  simp only [if_true, Except.ok.injEq] at h
                  subst h; left; simp [networkAnswer, truthy, networkErrorMsg]
                | false =>
                  simp only [Bool.false_eq_true, if_false, Except.ok.injEq] at h
                  exact Or.inr h.symm

theorem decodeErrorV2Try_msg {err : JSVal} {d : Decoded} (h : decodeErrorV2Try err = .ok d) :
    d.msg.truthy = true ∨ d = defaultAnswer := by
  rw [decodeErrorV2Try_eq] at h
  cases h1 : fullNodeCond err with
  | error x => simp [h1, error_bind] at h
  | ok c1 =>
    simp only [h1, ok_bind] at h
    by_cases hc1 : c1.truthy = true
    · simp only [hc1, if_true, Except.ok.injEq] at h
      subst h; exact Or.inl hc1
    · simp only [hc1, Bool.false_eq_true, if_false] at h
      cases h3 : networkCondV2 err with
      | error x => simp [h3, error_bind] at h
      | ok c3 =>
        simp only [h3, ok_bind] at h
        cases c3 with
        | true =>
          simp only [if_true, Except.ok.injEq] at h
          subst h; left; simp [networkAnswerV2, truthy, networkErrorMsgV2]
        | false =>
          simp only [Bool.false_eq_true, if_false, Except.ok.injEq] at h
          exact Or.inr h.symm

theorem decodeError_msg {err : JSVal} {d : Decoded} (h : decodeError err = .ok d) :
    d.msg.truthy = true ∨ d = defaultAnswer := by
  unfold decodeError at h
  cases ht : decodeErrorTry err with
  | error x => simp only [ht, Except.ok.injEq] at h; exact Or.inr h.symm
  | ok d0 => simp only [ht, Except.ok.injEq] at h; subst h; exact decodeErrorTry_msg ht

theorem decodeErrorV2_msg {err : JSVal} {d : Decoded} (h : decodeErrorV2 err = .ok d) :
    d.msg.truthy = true ∨ d = defaultAnswer := by
  unfold decodeErrorV2 at h
  cases ht : decodeErrorV2Try err with
  | error x => simp only [ht, Except.ok.injEq] at h; exact Or.inr h.symm
  | ok d0 => simp only [ht, Except.ok.injEq] at h; subst h; exact decodeErrorV2Try_msg ht

/-- C1 (amended): for every non-empty string `X`, a failure whose response body has the
nested `error.message` `X` decodes to exactly `{ msg: X, status: 400 }`, in both versions
of `decodeError`. -/
theorem decodeError_full_node_message (X : String) (hX : X ≠ "")
    (err response data error : JSVal)
    (hr : getProp err "response" = .ok response)
    (hd : getProp response "data" = .ok data)
    (he : getProp data "error" = .ok error)
    (hm : getProp error "message" = .ok (.str X)) :
    decodeError err = .ok { msg := .str X, status := .num 400 } ∧
    decodeErrorV2 err = .ok { msg := .str X, status := .num 400 } := by
  have hXt : (JSVal.str X).truthy = true := by simp [truthy, hX]
  have het := truthy_of_getProp hm hXt
  have hdt := truthy_of_getProp he het
  have h1 : fullNodeCond err = .ok (.str X) := by
    rw [fullNodeCond_eq hr hd he hdt]; simp [het, hm]
  constructor
  · simp [decodeError, decodeErrorTry_eq, h1, ok_bind, hXt]
  · simp [decodeErrorV2, decodeErrorV2Try_eq, h1, ok_bind, hXt]

/-- Witness of C1: the body `{ error: { message: "Block not found" } }`. -/
theorem decodeError_full_node_message_witness :
    decodeError (fullNodeFailure "Block not found") =
      .ok { msg := .str "Block not found", status := .num 400 } ∧
    decodeErrorV2 (fullNodeFailure "Block not found") =
      .ok { msg := .str "Block not found", status := .num 400 } :=
  decodeError_full_node_message "Block not found" (by decide) (fullNodeFailure "Block not found")
    (.obj [("status", .num 500),
           ("data", .obj [("error", .obj [("message", .str "Block not found")])])])
    (.obj [("error", .obj [("message", .str "Block not found")])])
    (.obj [("message", .str "Block not found")]) rfl rfl rfl rfl

/-- Counterexample to C1 as stated: for `X = ""` the response body
`{ error: { message: "" } }` does not decode to `{ msg: "", status: 400 }`; the util
version answers with the whole body and the response status, the routes/v2 version with
the default. -/
theorem decodeError_empty_message_counterexample :
    decodeError emptyMessageFailure =
      .ok { msg := .obj [("error", .obj [("message", .str "")])], status := .num 500 } ∧
    decodeErrorV2 emptyMessageFailure = .ok { msg := .bool false, status := .num 500 } ∧
    decodeError emptyMessageFailure ≠ .ok { msg := .str "", status := .num 400 } ∧
    decodeErrorV2 emptyMessageFailure ≠ .ok { msg := .str "", status := .num 400 } := by
  have h1 : decodeError emptyMessageFailure =
      .ok { msg := .obj [("error", .obj [("message", .str "")])], status := .num 500 } := rfl
  have h2 : decodeErrorV2 emptyMessageFailure =
      .ok { msg := .bool false, status := .num 500 } := rfl
  refine ⟨h1, h2, ?_, ?_⟩
  · rw [h1]; simp
  · rw [h2]; simp

/-- C2: `decodeError` never raises: for every input value, in both versions, it returns
an object `{ msg, status }`; for `null` and `undefined` that object is the default
`{ msg: false, status: 500 }`. -/
theorem decodeError_total (err : JSVal) :
    (∃ d, decodeError err = .ok d) ∧ (∃ d, decodeErrorV2 err = .ok d) ∧
    decodeError .null = .ok defaultAnswer ∧ decodeError .undefined = .ok defaultAnswer ∧
    decodeErrorV2 .null = .ok defaultAnswer ∧
    decodeErrorV2 .undefined = .ok defaultAnswer := by
  refine ⟨?_, ?_, rfl, rfl, rfl, rfl⟩
  · unfold decodeError
    cases decodeErrorTry err with
    | error x => exact ⟨_, rfl⟩
    | ok d => exact ⟨d, rfl⟩
  · unfold decodeErrorV2
    cases decodeErrorV2Try err with
    | error x => exact ⟨_, rfl⟩
    | ok d => exact ⟨d, rfl⟩

/-- Counterexample to C3 as stated: the `decodeError` of `routes/v2/route-utils.js` has
no response-body branch; the upstream 404 with body `{ statusText: "Not Found" }` decodes
to the default there, not to the body and the response status. -/
theorem decodeErrorV2_response_body_counterexample :
    decodeErrorV2 notFoundFailure = .ok { msg := .bool false, status := .num 500 } ∧
    decodeErrorV2 notFoundFailure ≠
      .ok { msg := .obj [("statusText", .str "Not Found")], status := .num 404 } := by
  have h : decodeErrorV2 notFoundFailure = .ok { msg := .bool false, status := .num 500 } := rfl
  refine ⟨h, ?_⟩
  rw [h]; simp

theorem decodeError_of_body (err response data status : JSVal)
    (hr : getProp err "response" = .ok response)
    (hd : getProp response "data" = .ok data)
    (hdt : data.truthy = true)
    (hn : ∀ error message, getProp data "error" = .ok error → error.truthy = true →
      getProp error "message" = .ok message → message.truthy = false)
    (hs : getProp response "status" = .ok status) :
    decodeError err = .ok { msg := data, status := status } ∧
    (decodeErrorV2 err = .ok networkAnswerV2 ∨ decodeErrorV2 err = .ok defaultAnswer) := by
  have hrt := truthy_of_getProp hd hdt
  obtain ⟨error, he⟩ := getProp_of_truthy "error" hdt
  have h1 : ∃ c1, fullNodeCond err = .ok c1 ∧ c1.truthy = false := by
    rw [fullNodeCond_eq hr hd he hdt]
    by_cases het : error.truthy = true
    · obtain ⟨message, hm⟩ := getProp_of_truthy "message" het
      exact ⟨message, by simp [het, hm], hn error message he het hm⟩
    · exact ⟨error, by simp [het], by simpa using het⟩
  obtain ⟨c1, hc1, hc1f⟩ := h1
  have h2 : insightCond err = .ok data := by rw [insightCond_eq hr]; simp [hrt, hd]
  constructor
  · simp [decodeError, decodeErrorTry_eq, hc1, hc1f, h2, hdt, hr, hs, ok_bind]
  · unfold decodeErrorV2
    rw [decodeErrorV2Try_eq]
    simp only [hc1, hc1f, ok_bind, Bool.false_eq_true, if_false]
    cases networkCondV2 err with
    | error x => right; rfl
    | ok c3 => cases c3 <;> simp [ok_bind]

/-- C3 (amended): in `util/route-utils.js`, a failure that carries a response body (a
truthy `err.response.data`) without a truthy nested `error.message` decodes to that body
and the response status; the `decodeError` of `routes/v2/route-utils.js` has no such
branch and answers such a failure with its 503 network error or with the default. -/
theorem decodeError_response_body (err response data status : JSVal)
    (hr : getProp err "response" = .ok response)
    (hd : getProp response "data" = .ok data)
    (hdt : data.truthy = true)
    (hn : ∀ error message, getProp data "error" = .ok error → error.truthy = true →
      getProp error "message" = .ok message → message.truthy = false)
    (hs : getProp response "status" = .ok status) :
    decodeError err = .ok { msg := data, status := status } ∧
    (decodeErrorV2 err = .ok networkAnswerV2 ∨ decodeErrorV2 err = .ok defaultAnswer) :=
  decodeError_of_body err response data status hr hd hdt hn hs

/-- Witness of C3: the upstream 404 with body `{ statusText: "Not Found" }`. -/
theorem decodeError_response_body_witness :
    decodeError notFoundFailure =
      .ok { msg := .obj [("statusText", .str "Not Found")], status := .num 404 } ∧
    (decodeErrorV2 notFoundFailure = .ok networkAnswerV2 ∨
      decodeErrorV2 notFoundFailure = .ok defaultAnswer) :=
  decodeError_response_body notFoundFailure
    (.obj [("status", .num 404), ("data", .obj [("statusText", .str "Not Found")])])
    (.obj [("statusText", .str "Not Found")]) (.num 404) rfl rfl rfl
    (by
      intro error message he het
      have : error = .undefined := by
        have h : getProp (.obj [("statusText", .str "Not Found")]) "error" = .ok .undefined := rfl
        rw [h] at he
        exact (Except.ok.inj he).symm
      subst this
      simp [truthy] at het)
    rfl

theorem networkCond_eq {err message : JSVal} (hm : getProp err "message" = .ok message)
    (hmt : messageWellTyped message = true) :
    networkCond err = .ok (containsMarker message "ENOTFOUND" ||
      containsMarker message "ENETUNREACH" || containsMarker message "EAI_AGAIN") := by
  unfold networkCond
  simp only [hm, ok_bind]
  by_cases ht : message.truthy = true
  · have hsa : message.isString = true ∨ message.isArray = true := by
      simp only [messageWellTyped, Bool.or_eq_true, Bool.not_eq_true', ht] at hmt
      rcases hmt with (h | h) | h
      · cases h
      · exact Or.inl h
      · exact Or.inr h
    obtain ⟨i1, h1, e1⟩ := callIndexOf_eq "ENOTFOUND" hsa
    obtain ⟨i2, h2, e2⟩ := callIndexOf_eq "ENETUNREACH" hsa
    obtain ⟨i3, h3, e3⟩ := callIndexOf_eq "EAI_AGAIN" hsa
    simp only [ht, if_true, h1, h2, h3, ok_bind, ← e1, ← e2, ← e3]
    by_cases g1 : i1 > -1
    · simp [g1, pure, Except.pure]
    · by_cases g2 : i2 > -1
      · simp [g1, g2, pure, Except.pure]
      · simp [g1, g2, pure, Except.pure]
  · have hc : containsMarker message "ENOTFOUND" = false ∧
        containsMarker message "ENETUNREACH" = false ∧
        containsMarker message "EAI_AGAIN" = false := by
      cases message <;> simp [truthy] at ht <;> try exact ⟨rfl, rfl, rfl⟩
      subst ht
      exact ⟨by decide, by decide, by decide⟩
    simp [ht, hc.1, hc.2.1, hc.2.2, pure, Except.pure]

theorem codeCond_eq {err code : JSVal} (hc : getProp err "code" = .ok code) :
    codeCond err = .ok (code.strictEqStr "ECONNABORTED" || code.strictEqStr "ECONNREFUSED") := by
  unfold codeCond
  simp only [hc, ok_bind]
  by_cases ht : code.truthy = true
  · simp [ht, pure, Except.pure]
  · cases code <;> simp [truthy] at ht <;> simp [truthy, strictEqStr, pure, Except.pure]
    · subst ht; decide

theorem conds_of_no_body {err response : JSVal}
    (hr : getProp err "response" = .ok response)
    (hnb : response.truthy = false ∨
      ∃ data, getProp response "data" = .ok data ∧ data.truthy = false) :
    ∃ c1 c2, fullNodeCond err = .ok c1 ∧ c1.truthy = false ∧
      insightCond err = .ok c2 ∧ c2.truthy = false := by
  by_cases hrt : response.truthy = true
  · rcases hnb with h | ⟨data, hd, hdf⟩
    · rw [h] at hrt; cases hrt
    · refine ⟨data, data, ?_, hdf, ?_, hdf⟩
      · simp [fullNodeCond, hr, hrt, hd, hdf, ok_bind, pure, Except.pure]
      · simp [insightCond, hr, hrt, hd, ok_bind]
  · have hrf : response.truthy = false := by simpa using hrt
    refine ⟨response, response, ?_, hrf, ?_, hrf⟩
    · simp [fullNodeCond, hr, hrf, ok_bind, pure, Except.pure]
    · simp [insightCond, hr, hrf, ok_bind, pure, Except.pure]

/-- C4 (amended): a failure that carries no response body and whose message is absent
(falsy), a string or an array, and whose message contains `ENOTFOUND`, `ENETUNREACH` or
`EAI_AGAIN`, or whose code is `ECONNABORTED` or `ECONNREFUSED`, decodes to status 503
with the one fixed network-error message, whatever its other fields are. -/
theorem decodeError_network_error (err response message code : JSVal)
    (hr : getProp err "response" = .ok response)
    (hnb : response.truthy = false ∨
      ∃ data, getProp response "data" = .ok data ∧ data.truthy = false)
    (hm : getProp err "message" = .ok message)
    (hmt : messageWellTyped message = true)
    (hc : getProp err "code" = .ok code)
    (h : containsMarker message "ENOTFOUND" = true ∨
      containsMarker message "ENETUNREACH" = true ∨
      containsMarker message "EAI_AGAIN" = true ∨
      code = .str "ECONNABORTED" ∨ code = .str "ECONNREFUSED") :
    decodeError err =
      .ok { msg := .str "Network error: Could not communicate with full node or other external service.",
            status := .num 503 } := by
  obtain ⟨c1, c2, h1, h1f, h2, h2f⟩ := conds_of_no_body hr hnb
  unfold decodeError
  rw [decodeErrorTry_eq]
  simp only [h1, h1f, h2, h2f, ok_bind, networkCond_eq hm hmt, codeCond_eq hc,
    Bool.false_eq_true, if_false]
  rcases h with h | h | h | h | h
  · simp [h]; rfl
  · simp [h]; rfl
  · simp [h]; rfl
  · subst h
    cases hcm : (containsMarker message "ENOTFOUND" || containsMarker message "ENETUNREACH" ||
      containsMarker message "EAI_AGAIN") <;> simp [strictEqStr] <;> rfl
  · subst h
    cases hcm : (containsMarker message "ENOTFOUND" || containsMarker message "ENETUNREACH" ||
      containsMarker message "EAI_AGAIN") <;> simp [strictEqStr] <;> rfl

/-- Witness of C4 (amended): a DNS failure without a response. -/
theorem decodeError_network_error_witness :
    decodeError dnsFailure =
      .ok { msg := .str "Network error: Could not communicate with full node or other external service.",
            status := .num 503 } :=
  decodeError_network_error dnsFailure .undefined
    (.str "getaddrinfo ENOTFOUND fakeurl fakeurl:80") (.str "ENOTFOUND")
    rfl (Or.inl rfl) rfl rfl rfl (Or.inl (by decide))

/-- Counterexample to C4 as stated: a failure without a response whose code is
`ECONNREFUSED` and whose message is the number 42.  The network test calls
`err.message.indexOf`, which a number does not have; the `TypeError` is caught and the
answer is the default `{ msg: false, status: 500 }`, not the 503 answer: the result
depends on the field `message`. -/
theorem decodeError_network_error_counterexample :
    getProp (.obj [("message", .num 42), ("code", .str "ECONNREFUSED")]) "response" =
      .ok .undefined ∧
    getProp (.obj [("message", .num 42), ("code", .str "ECONNREFUSED")]) "code" =
      .ok (.str "ECONNREFUSED") ∧
    decodeError (.obj [("message", .num 42), ("code", .str "ECONNREFUSED")]) =
      .ok { msg := .bool false, status := .num 500 } ∧
    decodeError (.obj [("message", .num 42), ("code", .str "ECONNREFUSED")]) ≠
      .ok { msg := .str "Network error: Could not communicate with full node or other external service.",
            status := .num 503 } ∧
    decodeError (.obj [("code", .str "ECONNREFUSED")]) =
      .ok { msg := .str "Network error: Could not communicate with full node or other external service.",
            status := .num 503 } := by
  have h : decodeError (.obj [("message", .num 42), ("code", .str "ECONNREFUSED")]) =
      .ok { msg := .bool false, status := .num 500 } := rfl
  refine ⟨rfl, rfl, h, ?_, rfl⟩
  rw [h]; simp

/-- C5: the first matching branch wins.  For a failure that carries a response body and
also a DNS marker in its message or a connection-aborted/refused code: when the body has
a nested `error.message` `X` the result is `{ msg: X, status: 400 }`, and when it has
none the result is `{ msg: body, status: response.status }`; the network branches are
not reached. -/
theorem decodeError_first_match_wins (err response data status message code : JSVal)
    (hr : getProp err "response" = .ok response)
    (hd : getProp response "data" = .ok data)
    (hdt : data.truthy = true)
    (hs : getProp response "status" = .ok status)
    (hm : getProp err "message" = .ok message)
    (hc : getProp err "code" = .ok code)
    (hnet : containsMarker message "ENOTFOUND" = true ∨
      containsMarker message "ENETUNREACH" = true ∨
      containsMarker message "EAI_AGAIN" = true ∨
      code = .str "ECONNABORTED" ∨ code = .str "ECONNREFUSED") :
    (∀ error X, getProp data "error" = .ok error → error.truthy = true →
      getProp error "message" = .ok X → X.truthy = true →
      decodeError err = .ok { msg := X, status := .num 400 }) ∧
    ((∀ error X, getProp data "error" = .ok error → error.truthy = true →
      getProp error "message" = .ok X → X.truthy = false) →
      decodeError err = .ok { msg := data, status := status }) := by
  constructor
  · intro error X he het hX hXt
    have h1 : fullNodeCond err = .ok X := by
      rw [fullNodeCond_eq hr hd he hdt]; simp [het, hX]
    simp [decodeError, decodeErrorTry_eq, h1, ok_bind, hXt]
  · intro hn
    exact (decodeError_of_body err response data status hr hd hdt hn hs).1

/-- Witness of C5: a failure with a DNS marker and a connection-refused code decodes by
its response body, with a nested message and without one. -/
theorem decodeError_first_match_wins_witness :
    decodeError (fullNodeFailure "Block not found") =
      .ok { msg := .str "Block not found", status := .num 400 } ∧
    decodeError insightFailure = .ok { msg := .str "Not found", status := .num 404 } :=
  ⟨(decodeError_first_match_wins (fullNodeFailure "Block not found")
      (.obj [("status", .num 500),
             ("data", .obj [("error", .obj [("message", .str "Block not found")])])])
      (.obj [("error", .obj [("message", .str "Block not found")])]) (.num 500)
      (.str "getaddrinfo ENOTFOUND fakeurl") (.str "ECONNREFUSED")
      rfl rfl rfl rfl rfl rfl (Or.inl (by decide))).1
      (.obj [("message", .str "Block not found")]) (.str "Block not found")
      rfl rfl rfl rfl,
   (decodeError_first_match_wins insightFailure
      (.obj [("status", .num 404), ("data", .str "Not found")])
      (.str "Not found") (.num 404)
      (.str "getaddrinfo ENOTFOUND fakeurl") (.str "ECONNREFUSED")
      rfl rfl rfl rfl rfl rfl (Or.inr (Or.inr (Or.inr (Or.inr rfl))))).2
      (by
        intro error X he het
        have h : getProp (.str "Not found") "error" = .ok .undefined := rfl
        rw [h] at he
        have : error = .undefined := (Except.ok.inj he).symm
        subst this
        simp [truthy] at het)⟩

theorem getProp_ok_of_ok {v w : JSVal} {k : String} (h : getProp v k = .ok w) (k2 : String) :
    ∃ w2, getProp v k2 = .ok w2 := by
  cases v <;> simp [getProp] at h ⊢

theorem networkCondV2_eq {err message : JSVal} (hm : getProp err "message" = .ok message)
    (hmt : messageWellTyped message = true) :
    networkCondV2 err = .ok (containsMarker message "ENOTFOUND") := by
  unfold networkCondV2
  simp only [hm, ok_bind]
  by_cases ht : message.truthy = true
  · have hsa : message.isString = true ∨ message.isArray = true := by
      simp only [messageWellTyped, Bool.or_eq_true, Bool.not_eq_true', ht] at hmt
      rcases hmt with (h | h) | h
      · cases h
      · exact Or.inl h
      · exact Or.inr h
    obtain ⟨i1, h1, e1⟩ := callIndexOf_eq "ENOTFOUND" hsa
    simp [ht, h1, ok_bind, ← e1, pure, Except.pure]
  · have hc : containsMarker message "ENOTFOUND" = false := by
      cases message <;> simp [truthy] at ht <;> try exact rfl
      subst ht
      decide
    simp [ht, hc, pure, Except.pure]

theorem networkCond_ill_typed {err message : JSVal} (hm : getProp err "message" = .ok message)
    (hmt : messageWellTyped message = false) :
    (∃ e, networkCond err = .error e) ∧ (∃ e, networkCondV2 err = .error e) := by
  unfold networkCond networkCondV2
  simp only [hm, ok_bind]
  cases message <;> simp [messageWellTyped, truthy, isString, isArray] at hmt <;>
    simp [truthy, hmt, callIndexOf, error_bind]

theorem decodeError_of_no_match {err : JSVal}
    (hnb : ∀ response, getProp err "response" = .ok response → response.truthy = false ∨
      ∃ data, getProp response "data" = .ok data ∧ data.truthy = false)
    (hnm : ∀ message, getProp err "message" = .ok message →
      containsMarker message "ENOTFOUND" = false ∧
      containsMarker message "ENETUNREACH" = false ∧
      containsMarker message "EAI_AGAIN" = false)
    (hnc : ∀ code, getProp err "code" = .ok code →
      code ≠ .str "ECONNABORTED" ∧ code ≠ .str "ECONNREFUSED") :
    decodeError err = .ok defaultAnswer ∧ decodeErrorV2 err = .ok defaultAnswer := by
  cases hr : getProp err "response" with
  | error x =>
    have h1 : fullNodeCond err = .error x := by simp [fullNodeCond, hr, error_bind]
    constructor
    · simp [decodeError, decodeErrorTry_eq, h1, error_bind]; rfl
    · simp [decodeErrorV2, decodeErrorV2Try_eq, h1, error_bind]; rfl
  | ok response =>
    obtain ⟨c1, c2, h1, h1f, h2, h2f⟩ := conds_of_no_body hr (hnb response hr)
    obtain ⟨message, hm⟩ := getProp_ok_of_ok hr "message"
    obtain ⟨code, hc⟩ := getProp_ok_of_ok hr "code"
    obtain ⟨m1, m2, m3⟩ := hnm message hm
    obtain ⟨n1, n2⟩ := hnc code hc
    have hcode : (code.strictEqStr "ECONNABORTED" || code.strictEqStr "ECONNREFUSED") = false := by
      cases code <;> simp_all [strictEqStr]
    unfold decodeError decodeErrorV2
    rw [decodeErrorTry_eq, decodeErrorV2Try_eq]
    simp only [h1, h1f, h2, h2f, ok_bind, Bool.false_eq_true, if_false]
    cases hmt : messageWellTyped message with
    | true =>
      simp [networkCond_eq hm hmt, networkCondV2_eq hm hmt, codeCond_eq hc, m1, m2, m3, hcode,
        ok_bind]
    | false =>
      obtain ⟨⟨e1, he1⟩, ⟨e2, he2⟩⟩ := networkCond_ill_typed hm hmt
      simp only [he1, he2, error_bind]
      exact ⟨rfl, rfl⟩

/-- C6: whenever `decodeError` returns `msg = false` it returns status 500, in both
versions; and a failure with no response body, no network marker in its message and no
connection-aborted/refused code decodes to exactly `{ msg: false, status: 500 }`, in
both versions. -/
theorem decodeError_default (err : JSVal) :
    (∀ d, decodeError err = .ok d → d.msg = .bool false → d.status = .num 500) ∧
    (∀ d, decodeErrorV2 err = .ok d → d.msg = .bool false → d.status = .num 500) ∧
    ((∀ response, getProp err "response" = .ok response → response.truthy = false ∨
        ∃ data, getProp response "data" = .ok data ∧ data.truthy = false) →
      (∀ message, getProp err "message" = .ok message →
        containsMarker message "ENOTFOUND" = false ∧
        containsMarker message "ENETUNREACH" = false ∧
        containsMarker message "EAI_AGAIN" = false) →
      (∀ code, getProp err "code" = .ok code →
        code ≠ .str "ECONNABORTED" ∧ code ≠ .str "ECONNREFUSED") →
      decodeError err = .ok { msg := .bool false, status := .num 500 } ∧
      decodeErrorV2 err = .ok { msg := .bool false, status := .num 500 }) := by
  refine ⟨?_, ?_, ?_⟩
  · intro d hd hmsg
    rcases decodeError_msg hd with h | h
    · rw [hmsg] at h; simp [truthy] at h
    · rw [h]; rfl
  · intro d hd hmsg
    rcases decodeErrorV2_msg hd with h | h
    · rw [hmsg] at h; simp [truthy] at h
    · rw [h]; rfl
  · intro hnb hnm hnc
    exact decodeError_of_no_match hnb hnm hnc

/-- Witness of C6: a failure with a message only decodes to the default, whose status
is 500. -/
theorem decodeError_default_witness :
    (decodeError unknownFailure = .ok { msg := .bool false, status := .num 500 } ∧
      decodeErrorV2 unknownFailure = .ok { msg := .bool false, status := .num 500 }) ∧
    defaultAnswer.status = .num 500 ∧ defaultAnswer.status = .num 500 :=
  ⟨(decodeError_default unknownFailure).2.2
    (by
      intro response hr
      have h : getProp unknownFailure "response" = .ok .undefined := rfl
      rw [h] at hr
      rw [← Except.ok.inj hr]
      exact Or.inl rfl)
    (by
      intro message hm
      have h : getProp unknownFailure "message" = .ok (.str "socket hang up") := rfl
      rw [h] at hm
      rw [← Except.ok.inj hm]
      exact ⟨by decide, by decide, by decide⟩)
    (by
      intro code hc
      have h : getProp unknownFailure "code" = .ok .undefined := rfl
      rw [h] at hc
      rw [← Except.ok.inj hc]
      exact ⟨by simp, by simp⟩),
   (decodeError_default unknownFailure).1 defaultAnswer rfl rfl,
   (decodeError_default unknownFailure).2.1 defaultAnswer rfl rfl⟩

/-- C7 fails on the code: for the upstream 404 whose JSON body is
`{ statusText: "Not Found" }`, `decodeError` of `util/route-utils.js` returns that
object as `msg`, which is neither a string nor `false`. -/
theorem decodeError_msg_not_string :
    decodeError notFoundFailure =
      .ok { msg := .obj [("statusText", .str "Not Found")], status := .num 404 } ∧
    (JSVal.obj [("statusText", .str "Not Found")]).isString = false ∧
    JSVal.obj [("statusText", .str "Not Found")] ≠ .bool false :=
  ⟨rfl, rfl, by simp⟩

theorem jsLessEq_num (n m : Int) : jsLessEq (.num n) m = decide (n ≤ m) := rfl

theorem ite_bool_ok (b : Bool) :
    (if b = true then (Except.ok true : Except JSVal Bool) else Except.ok false) = .ok b := by
  cases b <;> rfl

theorem validateArraySize_of_length {req array w len : JSVal} {k : String}
    (hreq : getProp req k = .ok w) (hlen : getProp array "length" = .ok len) :
    validateArraySize req array = .ok (jsLessEq len 20) := by
  obtain ⟨locals, hl⟩ := getProp_ok_of_ok hreq "locals"
  unfold validateArraySize
  simp only [hl, ok_bind]
  by_cases hlt : locals.truthy = true
  · obtain ⟨pro, hp⟩ := getProp_of_truthy "proLimit" hlt
    simp only [hlt, if_true, hp, ok_bind, hlen, PRO_INPUT_SIZE, FREEMIUM_INPUT_SIZE, pure,
      Except.pure]
    cases pro.truthy <;> simp [ite_bool_ok]
  · simp only [hlt, Bool.false_eq_true, if_false, pure, Except.pure, ok_bind, hlen,
      PRO_INPUT_SIZE, FREEMIUM_INPUT_SIZE]
    exact ite_bool_ok _

theorem validateArraySize_of_throw {req array w e : JSVal} {k : String}
    (hreq : getProp req k = .ok w) (hlen : getProp array "length" = .error e) :
    validateArraySize req array = .error e := by
  obtain ⟨locals, hl⟩ := getProp_ok_of_ok hreq "locals"
  unfold validateArraySize
  simp only [hl, ok_bind]
  by_cases hlt : locals.truthy = true
  · obtain ⟨pro, hp⟩ := getProp_of_truthy "proLimit" hlt
    simp only [hlt, if_true, hp, ok_bind, hlen, error_bind]
    cases pro.truthy <;> rfl
  · simp only [hlt, Bool.false_eq_true, if_false, pure, Except.pure, ok_bind, hlen, error_bind]

/-- C8: for every request object and every array, `validateArraySize` returns true
exactly when the array has at most 20 entries; so it returns false for every length
above 20, true at exactly 20 and true for the empty array. -/
theorem validateArraySize_iff (fields : List (String × JSVal)) (items : List JSVal) :
    validateArraySize (.obj fields) (.arr items) = .ok (decide (items.length ≤ 20)) ∧
    validateArraySize (.obj fields) (.arr []) = .ok true := by
  have h : ∀ xs : List JSVal,
      validateArraySize (.obj fields) (.arr xs) = .ok (decide (xs.length ≤ 20)) := by
    intro xs
    have hreq : getProp (.obj fields) "locals" = .ok ((fields.lookup "locals").getD .undefined) :=
      rfl
    have hlen : getProp (.arr xs) "length" = .ok (.num xs.length) := rfl
    rw [validateArraySize_of_length hreq hlen, jsLessEq_num]
    congr 1
    simp
  exact ⟨h items, h []⟩

/-- Counterexample to C9 as stated: for `null` and for `undefined` the read of
`array.length` throws a `TypeError`, so no boolean is returned; and for a string, which
is not an array, the answer is `true`. -/
theorem validateArraySize_null_counterexample :
    validateArraySize (.obj []) .null =
      .error (typeError "Cannot read property length of null") ∧
    validateArraySize (.obj []) .undefined =
      .error (typeError "Cannot read property length of undefined") ∧
    validateArraySize (.obj []) (.str "abc") = .ok true :=
  ⟨rfl, rfl, rfl⟩

/-- C9 (amended): `validateArraySize` is a function of its arguments alone; for every
request object it returns a boolean on every value of `items` other than `null` and
`undefined`, on which it throws; it returns false for numbers, booleans and plain
objects without a `length` field, and for a string it tells whether the string has at
most 20 UTF-16 code units. -/
theorem validateArraySize_non_array (fields : List (String × JSVal)) :
    (∀ items, items ≠ .null → items ≠ .undefined →
      ∃ b, validateArraySize (.obj fields) items = .ok b) ∧
    (∃ e, validateArraySize (.obj fields) .null = .error e) ∧
    (∃ e, validateArraySize (.obj fields) .undefined = .error e) ∧
    (∀ n, validateArraySize (.obj fields) (.num n) = .ok false) ∧
    (∀ b, validateArraySize (.obj fields) (.bool b) = .ok false) ∧
    (∀ fs, fs.lookup "length" = none →
      validateArraySize (.obj fields) (.obj fs) = .ok false) ∧
    (∀ s, validateArraySize (.obj fields) (.str s) =
      .ok (decide (utf16Len s.data ≤ 20))) := by
  have hreq : getProp (.obj fields) "locals" = .ok ((fields.lookup "locals").getD .undefined) :=
    rfl
  refine ⟨?_, ?_, ?_, ?_, ?_, ?_, ?_⟩
  · intro items h1 h2
    have : ∃ len, getProp items "length" = .ok len := by
      cases items <;> simp [getProp] at h1 h2 ⊢
    obtain ⟨len, hlen⟩ := this
    exact ⟨_, validateArraySize_of_length hreq hlen⟩
  · exact ⟨_, validateArraySize_of_throw hreq rfl⟩
  · exact ⟨_, validateArraySize_of_throw hreq rfl⟩
  · intro n
    have hlen : getProp (.num n) "length" = .ok .undefined := rfl
    rw [validateArraySize_of_length hreq hlen]; rfl
  · intro b
    have hlen : getProp (.bool b) "length" = .ok .undefined := rfl
    rw [validateArraySize_of_length hreq hlen]; rfl
  · intro fs hfs
    have hlen : getProp (.obj fs) "length" = .ok .undefined := by simp [getProp, hfs]
    rw [validateArraySize_of_length hreq hlen]; rfl
  · intro s
    have hlen : getProp (.str s) "length" = .ok (.num (utf16Len s.data)) := rfl
    rw [validateArraySize_of_length hreq hlen, jsLessEq_num]
    congr 1
    simp

/-- Witness of C9: the string `"abc"` and the plain object `{}`. -/
theorem validateArraySize_non_array_witness :
    (∃ b, validateArraySize (.obj []) (.str "abc") = .ok b) ∧
    validateArraySize (.obj []) (.obj []) = .ok false :=
  ⟨(validateArraySize_non_array []).1 (.str "abc") (by simp) (by simp),
   (validateArraySize_non_array []).2.2.2.2.2.1 [] rfl⟩

theorem firstInvalidHash_of_valid (hashes : List JSVal)
    (hwf : ∀ h ∈ hashes, getProp h "length" = .ok (.num 64)) :
    firstInvalidHash hashes = .ok none := by
  induction hashes with
  | nil => rfl
  | cons h rest ih =>
    have h1 := hwf h (List.mem_cons_self _ _)
    have h2 := ih (fun x hx => hwf x (List.mem_cons_of_mem _ hx))
    simp [firstInvalidHash, h1, h2, strictEqNum]

theorem rejections_map_ok (resps : List JSVal) :
    rejections (resps.map Except.ok) = [] ∧ fulfilments (resps.map Except.ok) = resps := by
  induction resps with
  | nil => exact ⟨rfl, rfl⟩
  | cons r rest ih => simp [rejections, fulfilments, ih.1, ih.2]

theorem axiosAll_map_ok (pick : Nat) (resps : List JSVal) :
    axiosAll pick (resps.map Except.ok) = .ok resps := by
  simp [axiosAll, (rejections_map_ok resps).1, (rejections_map_ok resps).2]

theorem lookups_succeed (env : Env) (payload : JSVal → JSVal) (hashes : List JSVal)
    (hup : ∀ h ∈ hashes, ∃ resp, env.axiosGet (blockUrl env h) = .ok resp ∧
      getProp resp "data" = .ok (payload h)) :
    ∃ resps, (hashes.map (blockUrl env)).map env.axiosGet = resps.map Except.ok ∧
      extractData resps = .ok (hashes.map payload) := by
  induction hashes with
  | nil => exact ⟨[], rfl, rfl⟩
  | cons h rest ih =>
    obtain ⟨resp, hr, hd⟩ := hup h (List.mem_cons_self _ _)
    obtain ⟨resps, h1, h2⟩ := ih (fun x hx => hup x (List.mem_cons_of_mem _ hx))
    refine ⟨resp :: resps, ?_, ?_⟩
    · simp only [List.map_cons, hr, h1]
    · simp [extractData, hd, h2]

/-- With the guard of `src/util/route-utils.js` in place (which the loaded module does
not have): for every array of `N ≤ 20` hashes that each have length 64 and whose
upstream lookups all succeed, the text of `detailsByHashBulk` responds with status 200
and the array whose element `i` is the payload (`data`) of the upstream response for
`hashes[i]`.  One lookup per hash is issued, in input order. -/
theorem detailsByHashBulk_success_of_guard (dec : JSVal → Except JSVal Decoded) (env : Env)
    (pick : Nat) (req body : JSVal) (hashes : List JSVal) (payload : JSVal → JSVal)
    (hb : getProp req "body" = .ok body)
    (hh : getProp body "hashes" = .ok (.arr hashes))
    (hlen : hashes.length ≤ 20)
    (hwf : ∀ h ∈ hashes, getProp h "length" = .ok (.num 64))
    (hup : ∀ h ∈ hashes, ∃ resp, env.axiosGet (blockUrl env h) = .ok resp ∧
      getProp resp "data" = .ok (payload h)) :
    detailsByHashBulk { decodeError := dec, validateArraySize := validateArraySize }
        env pick req =
      .ok { status := .num 200, body := .arr (hashes.map payload) } ∧
    (hashes.map payload).length = hashes.length ∧
    detailsByHashBulkCalls { decodeError := dec, validateArraySize := validateArraySize }
        env pick req = hashes.map (blockUrl env) := by
  have hv : validateArraySize req (.arr hashes) = .ok true := by
    have hl : getProp (.arr hashes) "length" = .ok (.num hashes.length) := rfl
    rw [validateArraySize_of_length hb hl, jsLessEq_num]
    congr 1
    simp only [decide_eq_true_eq]
    exact_mod_cast hlen
  obtain ⟨resps, h1, h2⟩ := lookups_succeed env payload hashes hup
  have ht : detailsByHashBulkTry { decodeError := dec, validateArraySize := validateArraySize }
      env pick req =
      (.ok { status := .num 200, body := .arr (hashes.map payload) },
        hashes.map (blockUrl env)) := by
    simp [detailsByHashBulkTry, hb, hh, ok_bind, hv, firstInvalidHash_of_valid hashes hwf, h1,
      axiosAll_map_ok, h2, pure, Except.pure]
  refine ⟨?_, by simp, ?_⟩
  · simp [detailsByHashBulk, ht]
  · simp [detailsByHashBulkCalls, ht]

theorem errorCascade_eq {ru : RouteUtils} {env : Env} {f r : JSVal} {d : Decoded}
    (hr : getProp f "response" = .ok r) (hd : ru.decodeError f = .ok d) :
    errorCascade ru env f = .ok (cascadeResponse env d f) := by
  unfold errorCascade cascadeResponse signalsNotFound
  simp only [hd, hr, ok_bind]
  by_cases hm : d.msg.truthy = true
  · simp [hm, pure, Except.pure]
  · simp only [hm, Bool.false_eq_true, if_false]
    by_cases hrt : r.truthy = true
    · obtain ⟨s, hs⟩ := getProp_of_truthy "status" hrt
      simp only [hrt, if_true, hs, Except.map, ok_bind, Bool.true_and]
      cases s.strictEqNum 404 <;> rfl
    · simp only [hrt, Bool.false_eq_true, if_false, pure, Except.pure, ok_bind, Bool.false_and]

theorem errorCascadeNode_eq {ru : RouteUtils} {env : Env} {f : JSVal} {d : Decoded}
    (hd : ru.decodeError f = .ok d) :
    errorCascadeNode ru env f = .ok (cascadeNodeResponse env d f) := by
  unfold errorCascadeNode cascadeNodeResponse
  simp only [hd, ok_bind]
  by_cases hm : d.msg.truthy = true
  · simp [hm, pure, Except.pure]
  · simp [hm, pure, Except.pure]

/-- C12: when the body field is missing or is not an array (a single string identifier
included), `detailsByHashBulk`, `detailsByHeightBulk` and `validateBulk` respond with
status 400 and the message that the field needs to be an array, and issue no upstream
call. -/
theorem bulk_rejects_non_array (ru : RouteUtils) (env : Env) (node : FullNode)
    (isValidSlpTxid : JSVal → Except JSVal JSVal) (pick : Nat) (req body : JSVal)
    (hb : getProp req "body" = .ok body) :
    (∀ v, getProp body "hashes" = .ok v → v.isArray = false →
      detailsByHashBulk ru env pick req =
        .ok { status := .num 400,
              body := errorBody (.str "hashes needs to be an array. Use GET for single address.") } ∧
      detailsByHashBulkCalls ru env pick req = []) ∧
    (∀ v, getProp body "heights" = .ok v → v.isArray = false →
      detailsByHeightBulk ru env node pick req =
        .ok { status := .num 400,
              body := errorBody (.str "heights needs to be an array. Use GET for single height.") } ∧
      detailsByHeightBulkCalls ru env node pick req = []) ∧
    (∀ v, getProp body "txids" = .ok v → v.isArray = false →
      validateBulk ru env isValidSlpTxid pick req =
        .ok { status := .num 400, body := errorBody (.str "txids needs to be an array") } ∧
      validateBulkCalls isValidSlpTxid pick req = []) := by
  refine ⟨?_, ?_, ?_⟩
  · intro v hv hna
    have ht : detailsByHashBulkTry ru env pick req =
        (.ok { status := .num 400,
               body := errorBody (.str "hashes needs to be an array. Use GET for single address.") },
          []) := by
      cases v <;> simp [isArray] at hna <;> simp [detailsByHashBulkTry, hb, hv, ok_bind]
    simp [detailsByHashBulk, detailsByHashBulkCalls, ht]
  · intro v hv hna
    have ht : detailsByHeightBulkTry ru env node pick req =
        (.ok { status := .num 400,
               body := errorBody (.str "heights needs to be an array. Use GET for single height.") },
          []) := by
      cases v <;> simp [isArray] at hna <;> simp [detailsByHeightBulkTry, hb, hv, ok_bind]
    simp [detailsByHeightBulk, detailsByHeightBulkCalls, ht]
  · intro v hv hna
    have ht : validateBulkTry isValidSlpTxid pick req =
        (.ok { status := .num 400, body := errorBody (.str "txids needs to be an array") },
          []) := by
      cases v <;> simp [isArray] at hna <;> simp [validateBulkTry, hb, hv, ok_bind]
    simp [validateBulk, validateBulkCalls, ht]

/-- Witness of C12: the empty body `{}` of `test/v2/block.js`, where each field is
missing. -/
theorem bulk_rejects_non_array_witness :
    (detailsByHashBulk v2RouteUtils exampleEnv 0 emptyBodyRequest =
        .ok { status := .num 400,
              body := errorBody (.str "hashes needs to be an array. Use GET for single address.") } ∧
      detailsByHashBulkCalls v2RouteUtils exampleEnv 0 emptyBodyRequest = []) ∧
    (detailsByHeightBulk v2RouteUtils exampleEnv exampleNode 0 emptyBodyRequest =
        .ok { status := .num 400,
              body := errorBody (.str "heights needs to be an array. Use GET for single height.") } ∧
      detailsByHeightBulkCalls v2RouteUtils exampleEnv exampleNode 0 emptyBodyRequest = []) ∧
    (validateBulk v2RouteUtils exampleEnv (fun _ => .ok (.bool true)) 0 emptyBodyRequest =
        .ok { status := .num 400, body := errorBody (.str "txids needs to be an array") } ∧
      validateBulkCalls (fun _ => .ok (.bool true)) 0 emptyBodyRequest = []) :=
  ⟨(bulk_rejects_non_array v2RouteUtils exampleEnv exampleNode (fun _ => .ok (.bool true)) 0
      emptyBodyRequest (.obj []) rfl).1 .undefined rfl rfl,
   (bulk_rejects_non_array v2RouteUtils exampleEnv exampleNode (fun _ => .ok (.bool true)) 0
      emptyBodyRequest (.obj []) rfl).2.1 .undefined rfl rfl,
   (bulk_rejects_non_array v2RouteUtils exampleEnv exampleNode (fun _ => .ok (.bool true)) 0
      emptyBodyRequest (.obj []) rfl).2.2 .undefined rfl rfl⟩

/-- With the guard of `src/util/route-utils.js` in place (which the loaded module does
not have): for every array of more than 20 entries the text of `detailsByHashBulk`
responds with status 429 and the error `Array too large.`, whatever the entries are,
and issues no upstream call. -/
theorem detailsByHashBulk_too_large_of_guard (dec : JSVal → Except JSVal Decoded) (env : Env)
    (pick : Nat) (req body : JSVal) (hashes : List JSVal)
    (hb : getProp req "body" = .ok body)
    (hh : getProp body "hashes" = .ok (.arr hashes))
    (hlen : 20 < hashes.length) :
    detailsByHashBulk { decodeError := dec, validateArraySize := validateArraySize }
        env pick req =
      .ok { status := .num 429, body := errorBody (.str "Array too large.") } ∧
    detailsByHashBulkCalls { decodeError := dec, validateArraySize := validateArraySize }
        env pick req = [] := by
  have hv : validateArraySize req (.arr hashes) = .ok false := by
    have hl : getProp (.arr hashes) "length" = .ok (.num hashes.length) := rfl
    rw [validateArraySize_of_length hb hl, jsLessEq_num]
    congr 1
    simp only [decide_eq_false_iff_not, not_le]
    exact_mod_cast hlen
  have ht : detailsByHashBulkTry { decodeError := dec, validateArraySize := validateArraySize }
      env pick req =
      (.ok { status := .num 429, body := errorBody (.str "Array too large.") }, []) := by
    simp [detailsByHashBulkTry, hb, hh, ok_bind, hv]
  simp [detailsByHashBulk, detailsByHashBulkCalls, ht]

theorem firstInvalidHash_append (valid : List JSVal) (bad len : JSVal) (rest : List JSVal)
    (hv : ∀ h ∈ valid, getProp h "length" = .ok (.num 64))
    (hl : getProp bad "length" = .ok len) (hne : len.strictEqNum 64 = false) :
    firstInvalidHash (valid ++ bad :: rest) = .ok (some bad) := by
  induction valid with
  | nil => simp [firstInvalidHash, hl, hne]
  | cons h t ih =>
    have h1 := hv h (List.mem_cons_self _ _)
    have h2 := ih (fun x hx => hv x (List.mem_cons_of_mem _ hx))
    simp [firstInvalidHash, h1, h2, strictEqNum]

/-- When every entry before the first invalid one is well formed and the invalid entry
is neither `null` nor `undefined`, `detailsByHashBulk` responds with status 400 and an
`Invalid hash` error naming that entry, and issues no upstream call. -/
theorem detailsByHashBulk_invalid_hash (dec : JSVal → Except JSVal Decoded) (env : Env)
    (pick : Nat) (req body : JSVal) (valid : List JSVal) (bad len : JSVal)
    (rest : List JSVal)
    (hb : getProp req "body" = .ok body)
    (hh : getProp body "hashes" = .ok (.arr (valid ++ bad :: rest)))
    (hlen : (valid ++ bad :: rest).length ≤ 20)
    (hv : ∀ h ∈ valid, getProp h "length" = .ok (.num 64))
    (hl : getProp bad "length" = .ok len) (hne : len.strictEqNum 64 = false) :
    detailsByHashBulk { decodeError := dec, validateArraySize := validateArraySize }
        env pick req =
      .ok { status := .num 400,
            body := errorBody (.str
              ("Invalid hash. Double check your hash is valid: " ++ toStr bad)) } ∧
    detailsByHashBulkCalls { decodeError := dec, validateArraySize := validateArraySize }
        env pick req = [] := by
  have hvs : validateArraySize req (.arr (valid ++ bad :: rest)) = .ok true := by
    have hl2 : getProp (.arr (valid ++ bad :: rest)) "length" =
        .ok (.num (valid ++ bad :: rest).length) := rfl
    rw [validateArraySize_of_length hb hl2, jsLessEq_num]
    congr 1
    simp only [decide_eq_true_eq]
    exact_mod_cast hlen
  have ht : detailsByHashBulkTry { decodeError := dec, validateArraySize := validateArraySize }
      env pick req =
      (.ok { status := .num 400,
             body := errorBody (.str
               ("Invalid hash. Double check your hash is valid: " ++ toStr bad)) }, []) := by
    simp [detailsByHashBulkTry, hb, hh, ok_bind, hvs, firstInvalidHash_append valid bad len rest hv hl hne]
  simp [detailsByHashBulk, detailsByHashBulkCalls, ht]

/-- C14 fails on the code: for the array `[null]`, whose one entry does not have length
64, reading `thisHash.length` throws; `detailsByHashBulk` responds with status 500 and a
rendering of the `TypeError`, not with status 400 and `Invalid hash`.  The same happens
behind a well-formed hash. -/
theorem detailsByHashBulk_null_entry :
    detailsByHashBulk utilRouteUtils exampleEnv 0
        (.obj [("body", .obj [("hashes", .arr [.null])])]) =
      .ok { status := .num 500,
            body := errorBody (.str (exampleEnv.inspect
              (typeError "Cannot read property length of null"))) } ∧
    detailsByHashBulk v2RouteUtils exampleEnv 0
        (.obj [("body", .obj [("hashes", .arr [.null])])]) =
      .ok { status := .num 500,
            body := errorBody (.str (exampleEnv.inspect
              (typeError "Cannot read property length of null"))) } ∧
    detailsByHashBulk v2RouteUtils exampleEnv 0
        (.obj [("body", .obj [("hashes", .arr [.str exampleHashA, .null])])]) =
      .ok { status := .num 500,
            body := errorBody (.str (exampleEnv.inspect
              (typeError "Cannot read property length of null"))) } :=
  ⟨rfl, rfl, rfl⟩

/-- C15: when the path identifier is missing or the empty string, `detailsByHashSingle`
responds with status 400 and `{ error: "hash must not be empty" }`, and
`detailsByHeightSingle` with status 400 and `{ error: "height must not be empty" }`;
neither issues an upstream call. -/
theorem single_rejects_empty (ru : RouteUtils) (env : Env) (node : FullNode)
    (req params : JSVal) (hp : getProp req "params" = .ok params) :
    (∀ v, getProp params "hash" = .ok v → v = .undefined ∨ v = .str "" →
      detailsByHashSingle ru env req =
        .ok { status := .num 400, body := .obj [("error", .str "hash must not be empty")] } ∧
      detailsByHashSingleCalls env req = []) ∧
    (∀ v, getProp params "height" = .ok v → v = .undefined ∨ v = .str "" →
      detailsByHeightSingle ru env node req =
        .ok { status := .num 400, body := .obj [("error", .str "height must not be empty")] } ∧
      detailsByHeightSingleCalls env node req = []) := by
  constructor
  · intro v hv hempty
    have hread : readParam req "hash" = .ok v := by simp [readParam, hp, hv, ok_bind]
    have ht : detailsByHashSingleTry env (readParam req "hash") =
        (.ok { status := .num 400, body := errorBody (.str "hash must not be empty") }, []) := by
      rcases hempty with rfl | rfl <;> simp [detailsByHashSingleTry, hread, truthy]
    simp [detailsByHashSingle, detailsByHashSingleOn, detailsByHashSingleCalls, ht, errorBody]
  · intro v hv hempty
    have hread : readParam req "height" = .ok v := by simp [readParam, hp, hv, ok_bind]
    have ht : detailsByHeightSingleTry node req =
        (.ok (.inl { status := .num 400, body := errorBody (.str "height must not be empty") }),
          []) := by
      rcases hempty with rfl | rfl <;> simp [detailsByHeightSingleTry, hread, truthy]
    simp [detailsByHeightSingle, detailsByHeightSingleCalls, ht, errorBody]

/-- Witness of C15: the empty hash of `test/v2/block.js` and a missing height. -/
theorem single_rejects_empty_witness :
    (detailsByHashSingle v2RouteUtils exampleEnv (.obj [("params", .obj [("hash", .str "")])]) =
        .ok { status := .num 400, body := .obj [("error", .str "hash must not be empty")] } ∧
      detailsByHashSingleCalls exampleEnv (.obj [("params", .obj [("hash", .str "")])]) = []) ∧
    (detailsByHeightSingle v2RouteUtils exampleEnv exampleNode
          (.obj [("params", .obj [("hash", .str "")])]) =
        .ok { status := .num 400, body := .obj [("error", .str "height must not be empty")] } ∧
      detailsByHeightSingleCalls exampleEnv exampleNode
          (.obj [("params", .obj [("hash", .str "")])]) = []) :=
  ⟨(single_rejects_empty v2RouteUtils exampleEnv exampleNode
      (.obj [("params", .obj [("hash", .str "")])]) (.obj [("hash", .str "")]) rfl).1
      (.str "") rfl (Or.inr rfl),
   (single_rejects_empty v2RouteUtils exampleEnv exampleNode
      (.obj [("params", .obj [("hash", .str "")])]) (.obj [("hash", .str "")]) rfl).2
      .undefined rfl (Or.inl rfl)⟩

/-- C16: for every non-empty hash whose upstream lookup succeeds, `detailsByHashSingle`
responds with status 200 and the upstream payload, unchanged, after one lookup. -/
theorem detailsByHashSingle_success (ru : RouteUtils) (env : Env)
    (req params hash response payload : JSVal)
    (hp : getProp req "params" = .ok params)
    (hh : getProp params "hash" = .ok hash)
    (ht : hash.truthy = true)
    (hup : env.axiosGet (blockUrl env hash) = .ok response)
    (hd : getProp response "data" = .ok payload) :
    detailsByHashSingle ru env req = .ok { status := .num 200, body := payload } ∧
    detailsByHashSingleCalls env req = [.get (blockUrl env hash)] := by
  have hread : readParam req "hash" = .ok hash := by simp [readParam, hp, hh, ok_bind]
  have hne : hash.strictEqStr "" = false := by
    cases hash <;> simp [truthy] at ht <;> simp [strictEqStr]
    exact ht
  have htry : detailsByHashSingleTry env (readParam req "hash") =
      (.ok { status := .num 200, body := payload }, [.get (blockUrl env hash)]) := by
    simp [detailsByHashSingleTry, hread, ht, hne, hup, hd, ok_bind, pure, Except.pure]
  simp [detailsByHashSingle, detailsByHashSingleOn, detailsByHashSingleCalls, htry]

/-- Witness of C16: the lookup of `exampleHashA`. -/
theorem detailsByHashSingle_success_witness :
    detailsByHashSingle v2RouteUtils exampleEnv exampleHashRequest =
      .ok { status := .num 200,
            body := .obj [("url", .str (blockUrl exampleEnv (.str exampleHashA)))] } ∧
    detailsByHashSingleCalls exampleEnv exampleHashRequest =
      [.get (blockUrl exampleEnv (.str exampleHashA))] :=
  detailsByHashSingle_success v2RouteUtils exampleEnv exampleHashRequest
    (.obj [("hash", .str exampleHashA)]) (.str exampleHashA)
    (.obj [("status", .num 200),
           ("data", .obj [("url", .str (blockUrl exampleEnv (.str exampleHashA)))])])
    (.obj [("url", .str (blockUrl exampleEnv (.str exampleHashA)))])
    rfl rfl rfl rfl rfl

theorem decodeErrorV2_of_no_nested {f c1 : JSVal}
    (h1 : fullNodeCond f = .ok c1) (h1f : c1.truthy = false)
    (hnm : ∀ message, getProp f "message" = .ok message →
      containsMarker message "ENOTFOUND" = false) :
    decodeErrorV2 f = .ok defaultAnswer := by
  unfold decodeErrorV2
  rw [decodeErrorV2Try_eq]
  simp only [h1, h1f, ok_bind, Bool.false_eq_true, if_false]
  cases hm : getProp f "message" with
  | error e =>
    have : networkCondV2 f = .error e := by simp [networkCondV2, hm, error_bind]
    simp only [this, error_bind]
    rfl
  | ok message =>
    cases hmt : messageWellTyped message with
    | true =>
      simp [networkCondV2_eq hm hmt, hnm message hm, ok_bind]
    | false =>
      obtain ⟨_, ⟨e2, he2⟩⟩ := networkCond_ill_typed hm hmt
      simp only [he2, error_bind]
      rfl

theorem errorCascade_plainNotFound {ru : RouteUtils}
    (hru : ru.decodeError = decodeError ∨ ru.decodeError = decodeErrorV2) (env : Env)
    {f : JSVal}
    (hf : plainNotFound f) :
    ∃ b, errorCascade ru env f = .ok { status := .num 404, body := b } := by
  obtain ⟨r, hr, hs, hnn, hnm, hnc⟩ := hf
  have hrt : r.truthy = true := truthy_of_getProp hs (by simp [truthy])
  have hsig : signalsNotFound f = true := by
    simp [signalsNotFound, hr, hrt, hs, strictEqNum]
  obtain ⟨data, hd⟩ := getProp_of_truthy "data" hrt
  by_cases hdt : data.truthy = true
  · -- the response carries a body without a nested message
    have hbody := decodeError_of_body f r data (.num 404) hr hd hdt
      (fun error message he het hm => hnn data error message hd hdt he het hm) hs
    obtain ⟨error, he⟩ := getProp_of_truthy "error" hdt
    have h1 : ∃ c1, fullNodeCond f = .ok c1 ∧ c1.truthy = false := by
      rw [fullNodeCond_eq hr hd he hdt]
      by_cases het : error.truthy = true
      · obtain ⟨message, hm⟩ := getProp_of_truthy "message" het
        exact ⟨message, by simp [het, hm], hnn data error message hd hdt he het hm⟩
      · exact ⟨error, by simp [het], by simpa using het⟩
    obtain ⟨c1, hc1, hc1f⟩ := h1
    rcases hru with hru | hru
    · have hdec : ru.decodeError f = .ok { msg := data, status := .num 404 } := by
        rw [hru]; exact hbody.1
      rw [errorCascade_eq hr hdec]
      exact ⟨errorBody data, by simp [cascadeResponse, hdt]⟩
    · have hdec : ru.decodeError f = .ok defaultAnswer := by
        rw [hru]; exact decodeErrorV2_of_no_nested hc1 hc1f (fun m hm => (hnm m hm).1)
      rw [errorCascade_eq hr hdec]
      exact ⟨errorBody (.str "Not Found"), by simp [cascadeResponse, defaultAnswer, truthy, hsig]⟩
  · have hdf : data.truthy = false := by simpa using hdt
    have hnb : ∀ response, getProp f "response" = .ok response → response.truthy = false ∨
        ∃ data, getProp response "data" = .ok data ∧ data.truthy = false := by
      intro response hresp
      rw [hr] at hresp
      have : r = response := Except.ok.inj hresp
      subst this
      exact Or.inr ⟨data, hd, hdf⟩
    have hdef := decodeError_of_no_match hnb hnm hnc
    rcases hru with hru | hru
    · have hdec : ru.decodeError f = .ok defaultAnswer := by rw [hru]; exact hdef.1
      rw [errorCascade_eq hr hdec]
      exact ⟨errorBody (.str "Not Found"), by simp [cascadeResponse, defaultAnswer, truthy, hsig]⟩
    · have hdec : ru.decodeError f = .ok defaultAnswer := by rw [hru]; exact hdef.2
      rw [errorCascade_eq hr hdec]
      exact ⟨errorBody (.str "Not Found"), by simp [cascadeResponse, defaultAnswer, truthy, hsig]⟩

theorem mem_rejections {f : JSVal} {settled : List (Except JSVal JSVal)} :
    f ∈ rejections settled ↔ Except.error f ∈ settled := by
  induction settled with
  | nil => simp [rejections]
  | cons x xs ih =>
    cases x with
    | ok v => simp [rejections, ih]
    | error e => simp [rejections, ih]

theorem axiosAll_error_of_mem (pick : Nat) {settled : List (Except JSVal JSVal)} {e : JSVal}
    (h : Except.error e ∈ settled) :
    ∃ f, axiosAll pick settled = .error f ∧ Except.error f ∈ settled := by
  have hmem : e ∈ rejections settled := mem_rejections.2 h
  unfold axiosAll
  cases hrej : rejections settled with
  | nil => rw [hrej] at hmem; cases hmem
  | cons x xs =>
    simp only []
    refine ⟨(x :: xs).getD (pick % (x :: xs).length) x, rfl, ?_⟩
    apply mem_rejections.1
    rw [hrej]
    have hlt : pick % (x :: xs).length < (x :: xs).length :=
      Nat.mod_lt _ (by simp)
    rw [List.getD_eq_getElem _ _ hlt]
    exact List.getElem_mem _

theorem validateArraySize_ok_true {req body : JSVal} {items : List JSVal}
    (hb : getProp req "body" = .ok body) (hlen : items.length ≤ 20) :
    validateArraySize req (.arr items) = .ok true := by
  have hl : getProp (.arr items) "length" = .ok (.num items.length) := rfl
  rw [validateArraySize_of_length hb hl, jsLessEq_num]
  congr 1
  simp only [decide_eq_true_eq]
  exact_mod_cast hlen

theorem detailsByHashBulkTry_of_failure {ru : RouteUtils} {env : Env} (pick : Nat)
    {req body : JSVal} {hashes : List JSVal}
    (hb : getProp req "body" = .ok body)
    (hh : getProp body "hashes" = .ok (.arr hashes))
    (hvs : ru.validateArraySize req (.arr hashes) = .ok true)
    (hwf : ∀ h ∈ hashes, getProp h "length" = .ok (.num 64))
    (hfail : ∃ h ∈ hashes, ∃ e, env.axiosGet (blockUrl env h) = .error e) :
    ∃ f, (detailsByHashBulkTry ru env pick req).1 = .error f ∧
      ∃ h ∈ hashes, env.axiosGet (blockUrl env h) = .error f := by
  obtain ⟨h0, hh0, e, he⟩ := hfail
  have hmem : Except.error e ∈ (hashes.map (blockUrl env)).map env.axiosGet := by
    simp only [List.map_map, List.mem_map, Function.comp]
    exact ⟨h0, hh0, he⟩
  obtain ⟨f, hf, hfm⟩ := axiosAll_error_of_mem pick hmem
  refine ⟨f, ?_, ?_⟩
  · simp only [detailsByHashBulkTry, hb, hh, ok_bind, hvs, firstInvalidHash_of_valid hashes hwf,
      hf, error_bind]
  · simp only [List.map_map, List.mem_map, Function.comp] at hfm
    obtain ⟨h1, hh1, h1e⟩ := hfm
    exact ⟨h1, hh1, h1e⟩

theorem detailsByHashSingleTry_of_failure {env : Env} {req params hash f : JSVal}
    (hp : getProp req "params" = .ok params)
    (hh : getProp params "hash" = .ok hash)
    (ht : hash.truthy = true)
    (hup : env.axiosGet (blockUrl env hash) = .error f) :
    (detailsByHashSingleTry env (readParam req "hash")).1 = .error f := by
  have hread : readParam req "hash" = .ok hash := by simp [readParam, hp, hh, ok_bind]
  have hne : hash.strictEqStr "" = false := by
    cases hash <;> simp [truthy] at ht <;> simp [strictEqStr]
    exact ht
  simp [detailsByHashSingleTry, hread, ht, hne, hup, error_bind]

theorem plainNotFound_notFoundFailure : plainNotFound notFoundFailure := by
  refine ⟨.obj [("status", .num 404), ("data", .obj [("statusText", .str "Not Found")])],
    rfl, rfl, ?_, ?_, ?_⟩
  · intro data error message hd _ he het
    have h1 : getProp (.obj [("status", .num 404),
        ("data", .obj [("statusText", .str "Not Found")])]) "data" =
        .ok (.obj [("statusText", .str "Not Found")]) := rfl
    rw [h1] at hd
    rw [← Except.ok.inj hd] at he
    have h2 : getProp (.obj [("statusText", .str "Not Found")]) "error" = .ok .undefined := rfl
    rw [h2] at he
    rw [← Except.ok.inj he] at het
    simp [truthy] at het
  · intro message hm
    have h : getProp notFoundFailure "message" =
        .ok (.str "Request failed with status code 404") := rfl
    rw [h] at hm
    rw [← Except.ok.inj hm]
    exact ⟨by decide, by decide, by decide⟩
  · intro code hc
    have h : getProp notFoundFailure "code" = .ok .undefined := rfl
    rw [h] at hc
    rw [← Except.ok.inj hc]
    exact ⟨by simp, by simp⟩

/-- Counterexample to C18 as stated: `getMiningInfo`, `getNetworkHashPS` and the
full-node step of `detailsByHeightSingle` have no 404 step.  For an upstream 404 with an
empty body `decodeError` gives no message and the failure signals not-found, yet the
response is 500, with either version of `decodeError`. -/
theorem node_handlers_no_404_counterexample :
    signalsNotFound notFoundEmpty = true ∧
    decodeError notFoundEmpty = .ok { msg := .bool false, status := .num 500 } ∧
    decodeErrorV2 notFoundEmpty = .ok { msg := .bool false, status := .num 500 } ∧
    getMiningInfo utilRouteUtils exampleEnv (failingNode notFoundEmpty) =
      .ok { status := .num 500, body := errorBody (.str (exampleEnv.inspect notFoundEmpty)) } ∧
    getMiningInfo v2RouteUtils exampleEnv (failingNode notFoundEmpty) =
      .ok { status := .num 500, body := errorBody (.str (exampleEnv.inspect notFoundEmpty)) } ∧
    getNetworkHashPS v2RouteUtils exampleEnv (failingNode notFoundEmpty) (.obj [("query", .obj [])]) =
      .ok { status := .num 500, body := errorBody (.str (exampleEnv.inspect notFoundEmpty)) } ∧
    detailsByHeightSingle v2RouteUtils exampleEnv (failingNode notFoundEmpty)
        exampleHeightRequest =
      .ok { status := .num 500, body := errorBody (.str (exampleEnv.inspect notFoundEmpty)) } :=
  ⟨rfl, rfl, rfl, rfl, rfl, rfl, rfl⟩

/-- C18 (amended): for every upstream failure `f` that a handler's `try` block fails
with, and `d = decodeError(f)`: `detailsByHashSingle`, `detailsByHashBulk` and
`detailsByHeightBulk` (and `detailsByHeightSingle` once it has handed the block hash to
`detailsByHashSingle`) respond with `d.status` and `{ error: d.msg }` if `d.msg` is
truthy, else with 404 if `f` has response status 404, else with 500; `getMiningInfo`,
`getNetworkHashPS` and the full-node step of `detailsByHeightSingle` respond with
`d.status` and `{ error: d.msg }` if `d.msg` is truthy and with 500 otherwise, also
when `f` has response status 404. -/
theorem error_path_cascade (ru : RouteUtils) (env : Env) (node : FullNode) (pick : Nat)
    (req f r : JSVal) (d : Decoded)
    (hr : getProp f "response" = .ok r) (hd : ru.decodeError f = .ok d) :
    ((detailsByHashSingleTry env (readParam req "hash")).1 = .error f →
      detailsByHashSingle ru env req = .ok (cascadeResponse env d f)) ∧
    ((detailsByHashBulkTry ru env pick req).1 = .error f →
      detailsByHashBulk ru env pick req = .ok (cascadeResponse env d f)) ∧
    ((detailsByHeightBulkTry ru env node pick req).1 = .error f →
      detailsByHeightBulk ru env node pick req = .ok (cascadeResponse env d f)) ∧
    (∀ hash, (detailsByHeightSingleTry node req).1 = .ok (.inr hash) →
      (detailsByHashSingleTry env (.ok hash)).1 = .error f →
      detailsByHeightSingle ru env node req = .ok (cascadeResponse env d f)) ∧
    ((detailsByHeightSingleTry node req).1 = .error f →
      detailsByHeightSingle ru env node req = .ok (cascadeNodeResponse env d f)) ∧
    (getMiningInfoTry node = .error f →
      getMiningInfo ru env node = .ok (cascadeNodeResponse env d f)) ∧
    (getNetworkHashPSTry node req = .error f →
      getNetworkHashPS ru env node req = .ok (cascadeNodeResponse env d f)) := by
  have hc : errorCascade ru env f = .ok (cascadeResponse env d f) := errorCascade_eq hr hd
  have hn : errorCascadeNode ru env f = .ok (cascadeNodeResponse env d f) :=
    errorCascadeNode_eq hd
  refine ⟨?_, ?_, ?_, ?_, ?_, ?_, ?_⟩
  · intro h
    simp only [detailsByHashSingle, detailsByHashSingleOn, h, hc]
  · intro h
    simp only [detailsByHashBulk, h, hc]
  · intro h
    simp only [detailsByHeightBulk, h, hc]
  · intro hash h1 h2
    simp only [detailsByHeightSingle, h1, detailsByHashSingleOn, h2, hc]
  · intro h
    simp only [detailsByHeightSingle, h, hn]
  · intro h
    simp only [getMiningInfo, h, hn]
  · intro h
    simp only [getNetworkHashPS, h, hn]

/-- Witness of C18: the upstream 404 with an empty body, on the error path of each of
the handlers. -/
theorem error_path_cascade_witness :
    detailsByHashSingle v2RouteUtils (failingEnv notFoundEmpty) exampleHashRequest =
      .ok (cascadeResponse (failingEnv notFoundEmpty) defaultAnswer notFoundEmpty) ∧
    detailsByHashBulk v2RouteUtils (failingEnv notFoundEmpty) 0 exampleBulkRequest =
      .ok (cascadeResponse (failingEnv notFoundEmpty) defaultAnswer notFoundEmpty) ∧
    detailsByHeightBulk v2RouteUtils (failingEnv notFoundEmpty) exampleNode 0
        exampleHeightsRequest =
      .ok (cascadeResponse (failingEnv notFoundEmpty) defaultAnswer notFoundEmpty) ∧
    detailsByHeightSingle v2RouteUtils (failingEnv notFoundEmpty) exampleNode
        exampleHeightRequest =
      .ok (cascadeResponse (failingEnv notFoundEmpty) defaultAnswer notFoundEmpty) ∧
    detailsByHeightSingle v2RouteUtils (failingEnv notFoundEmpty) (failingNode notFoundEmpty)
        exampleHeightRequest =
      .ok (cascadeNodeResponse (failingEnv notFoundEmpty) defaultAnswer notFoundEmpty) ∧
    getMiningInfo v2RouteUtils (failingEnv notFoundEmpty) (failingNode notFoundEmpty) =
      .ok (cascadeNodeResponse (failingEnv notFoundEmpty) defaultAnswer notFoundEmpty) ∧
    getNetworkHashPS v2RouteUtils (failingEnv notFoundEmpty) (failingNode notFoundEmpty)
        (.obj [("query", .obj [])]) =
      .ok (cascadeNodeResponse (failingEnv notFoundEmpty) defaultAnswer notFoundEmpty) :=
  ⟨(error_path_cascade v2RouteUtils (failingEnv notFoundEmpty) exampleNode 0
      exampleHashRequest notFoundEmpty
      (.obj [("status", .num 404), ("data", .str "")]) defaultAnswer rfl rfl).1 rfl,
   (error_path_cascade v2RouteUtils (failingEnv notFoundEmpty) exampleNode 0
      exampleBulkRequest notFoundEmpty
      (.obj [("status", .num 404), ("data", .str "")]) defaultAnswer rfl rfl).2.1 rfl,
   (error_path_cascade v2RouteUtils (failingEnv notFoundEmpty) exampleNode 0
      exampleHeightsRequest notFoundEmpty
      (.obj [("status", .num 404), ("data", .str "")]) defaultAnswer rfl rfl).2.2.1 rfl,
   (error_path_cascade v2RouteUtils (failingEnv notFoundEmpty) exampleNode 0
      exampleHeightRequest notFoundEmpty
      (.obj [("status", .num 404), ("data", .str "")]) defaultAnswer rfl rfl).2.2.2.1
      (.str exampleHashA) rfl rfl,
   (error_path_cascade v2RouteUtils (failingEnv notFoundEmpty) (failingNode notFoundEmpty) 0
      exampleHeightRequest notFoundEmpty
      (.obj [("status", .num 404), ("data", .str "")]) defaultAnswer rfl rfl).2.2.2.2.1 rfl,
   (error_path_cascade v2RouteUtils (failingEnv notFoundEmpty) (failingNode notFoundEmpty) 0
      exampleHeightRequest notFoundEmpty
      (.obj [("status", .num 404), ("data", .str "")]) defaultAnswer rfl rfl).2.2.2.2.2.1 rfl,
   (error_path_cascade v2RouteUtils (failingEnv notFoundEmpty) (failingNode notFoundEmpty) 0
      (.obj [("query", .obj [])]) notFoundEmpty
      (.obj [("status", .num 404), ("data", .str "")]) defaultAnswer rfl rfl).2.2.2.2.2.2 rfl⟩

/-- C19 fails on the code: when the full node's host cannot be resolved (message with
`ENOTFOUND`, no response), `detailsByHeightSingle` responds with status 503 and the
fixed network-error message of `decodeError`, which does not contain `ENOTFOUND`; the
test expects status 500 and an error containing `ENOTFOUND`. -/
theorem detailsByHeightSingle_dns_failure :
    detailsByHeightSingle v2RouteUtils exampleEnv (failingNode dnsFailure)
        (.obj [("params", .obj [("height", .str "abc123")])]) =
      .ok { status := .num 503,
            body := .obj [("error",
              .str "Network error: Could not communicate with full node.")] } ∧
    detailsByHeightSingle utilRouteUtils exampleEnv (failingNode dnsFailure)
        (.obj [("params", .obj [("height", .str "abc123")])]) =
      .ok { status := .num 503,
            body := .obj [("error", .str
              "Network error: Could not communicate with full node or other external service.")] } ∧
    strIndexOf "Network error: Could not communicate with full node." "ENOTFOUND" = -1 ∧
    strIndexOf "Network error: Could not communicate with full node or other external service."
      "ENOTFOUND" = -1 :=
  ⟨rfl, rfl, by decide, by decide⟩

/-- C20 (amended): for every `txids` array of more than 20 entries `validateBulk`
responds with status 400 and the error `Array too large. Max 20 txids`, and does not
call the validator. -/
theorem validateBulk_too_large (ru : RouteUtils) (env : Env)
    (isValidSlpTxid : JSVal → Except JSVal JSVal) (pick : Nat) (req body : JSVal)
    (txids : List JSVal)
    (hb : getProp req "body" = .ok body)
    (ht : getProp body "txids" = .ok (.arr txids))
    (hlen : 20 < txids.length) :
    validateBulk ru env isValidSlpTxid pick req =
      .ok { status := .num 400, body := errorBody (.str "Array too large. Max 20 txids") } ∧
    validateBulkCalls isValidSlpTxid pick req = [] := by
  have hgt : ((txids.length : Int) > 20) := by exact_mod_cast hlen
  have htry : validateBulkTry isValidSlpTxid pick req =
      (.ok { status := .num 400, body := errorBody (.str "Array too large. Max 20 txids") },
        []) := by
    simp only [validateBulkTry, hb, ht, ok_bind, hgt, if_true]
    rfl
  simp [validateBulk, validateBulkCalls, htry]

theorem decodeErrorTry_status {err : JSVal} {d : Decoded} (h : decodeErrorTry err = .ok d) :
    d.status = .num 400 ∨
    (∃ r, getProp err "response" = .ok r ∧ r.truthy = true ∧
      getProp r "status" = .ok d.status) ∨
    d.status = .num 503 ∨ d = defaultAnswer := by
  rw [decodeErrorTry_eq] at h
  cases h1 : fullNodeCond err with
  | error x => simp [h1, error_bind] at h
  | ok c1 =>
    simp only [h1, ok_bind] at h
    by_cases hc1 : c1.truthy = true
    · simp only [hc1, if_true, Except.ok.injEq] at h
      subst h; exact Or.inl rfl
    · simp only [hc1, Bool.false_eq_true, if_false] at h
      cases h2 : insightCond err with
      | error x => simp [h2, error_bind] at h
      | ok c2 =>
        simp only [h2, ok_bind] at h
        by_cases hc2 : c2.truthy = true
        · simp only [hc2, if_true] at h
          obtain ⟨r, hr, hrt, _⟩ := insightCond_truthy h2 hc2
          simp only [hr, ok_bind] at h
          cases hs : getProp r "status" with
          | error x => simp [hs, error_bind] at h
          | ok st =>
            simp only [hs, ok_bind, Except.ok.injEq] at h
            subst h
            exact Or.inr (Or.inl ⟨r, hr, hrt, hs⟩)
        · simp only [hc2, Bool.false_eq_true, if_false] at h
          cases h3 : networkCond err with
          | error x => simp [h3, error_bind] at h
          | ok c3 =>
            simp only [h3, ok_bind] at h
            cases c3 with
            | true =>
              simp only [if_true, Except.ok.injEq] at h
              subst h; exact Or.inr (Or.inr (Or.inl rfl))
            | false =>
              simp only [Bool.false_eq_true, if_false] at h
              cases h4 : codeCond err with
              | error x => simp [h4, error_bind] at h
              | ok c4 =>
                simp only [h4, ok_bind] at h
                cases c4 with
                | true =>
                  simp only [if_true, Except.ok.injEq] at h
                  subst h; exact Or.inr (Or.inr (Or.inl rfl))
                | false =>
                  simp only [Bool.false_eq_true, if_false, Except.ok.injEq] at h
                  exact Or.inr (Or.inr (Or.inr h.symm))

theorem decodeErrorV2Try_status {err : JSVal} {d : Decoded} (h : decodeErrorV2Try err = .ok d) :
    d.status = .num 400 ∨ d.status = .num 503 ∨ d = defaultAnswer := by
  rw [decodeErrorV2Try_eq] at h
  cases h1 : fullNodeCond err with
  | error x => simp [h1, error_bind] at h
  | ok c1 =>
    simp only [h1, ok_bind] at h
    by_cases hc1 : c1.truthy = true
    · simp only [hc1, if_true, Except.ok.injEq] at h
      subst h; exact Or.inl rfl
    · simp only [hc1, Bool.false_eq_true, if_false] at h
      cases h3 : networkCondV2 err with
      | error x => simp [h3, error_bind] at h
      | ok c3 =>
        simp only [h3, ok_bind] at h
        cases c3 with
        | true =>
          simp only [if_true, Except.ok.injEq] at h
          subst h; exact Or.inr (Or.inl rfl)
        | false =>
          simp only [Bool.false_eq_true, if_false, Except.ok.injEq] at h
          exact Or.inr (Or.inr h.symm)

theorem status_ne_200_of_failure {f r st : JSVal} (hf : isUpstreamFailure f = true)
    (hr : getProp f "response" = .ok r) (hrt : r.truthy = true)
    (hs : getProp r "status" = .ok st) : st ≠ .num 200 := by
  intro h
  subst h
  simp [isUpstreamFailure, hr, hrt, hs, strictEqNum] at hf

theorem decoded_status_ne_200 {ru : RouteUtils}
    (hdec : ru.decodeError = decodeError ∨ ru.decodeError = decodeErrorV2) {f : JSVal}
    (hf : isUpstreamFailure f = true) :
    ∃ d, ru.decodeError f = .ok d ∧ (d.msg.truthy = true → d.status ≠ .num 200) := by
  rcases hdec with hdec | hdec
  · rw [hdec]
    unfold decodeError
    cases ht : decodeErrorTry f with
    | error x => exact ⟨_, rfl, by simp [truthy]⟩
    | ok d =>
      refine ⟨d, rfl, ?_⟩
      intro hm
      rcases decodeErrorTry_status ht with h | ⟨r, hr, hrt, hs⟩ | h | h
      · rw [h]; simp
      · exact status_ne_200_of_failure hf hr hrt hs
      · rw [h]; simp
      · rw [h] at hm; simp [defaultAnswer, truthy] at hm
  · rw [hdec]
    unfold decodeErrorV2
    cases ht : decodeErrorV2Try f with
    | error x => exact ⟨_, rfl, by simp [truthy]⟩
    | ok d =>
      refine ⟨d, rfl, ?_⟩
      intro hm
      rcases decodeErrorV2Try_status ht with h | h | h
      · rw [h]; simp
      · rw [h]; simp
      · rw [h] at hm; simp [defaultAnswer, truthy] at hm

theorem errorCascade_of_failure {ru : RouteUtils}
    (hdec : ru.decodeError = decodeError ∨ ru.decodeError = decodeErrorV2) (env : Env)
    {f : JSVal}
    (hf : isUpstreamFailure f = true) :
    ∃ st m, errorCascade ru env f = .ok { status := st, body := errorBody m } ∧
      st ≠ .num 200 := by
  obtain ⟨d, hd, hst⟩ := decoded_status_ne_200 hdec hf
  have hr : ∃ r, getProp f "response" = .ok r := by
    cases h : getProp f "response" with
    | error x => simp [isUpstreamFailure, h] at hf
    | ok r => exact ⟨r, rfl⟩
  obtain ⟨r, hr⟩ := hr
  rw [errorCascade_eq hr hd]
  unfold cascadeResponse
  by_cases hm : d.msg.truthy = true
  · exact ⟨d.status, d.msg, by simp [hm], hst hm⟩
  · by_cases hn : signalsNotFound f = true
    · exact ⟨.num 404, .str "Not Found", by simp [hm, hn], by simp⟩
    · exact ⟨.num 500, .str (env.inspect f), by simp [hm, hn], by simp⟩

theorem isUpstreamFailure_of_getProp_error {v e : JSVal} {k : String}
    (h : getProp v k = .error e) : isUpstreamFailure e = true := by
  cases v <;> simp [getProp] at h <;> subst h <;> rfl

theorem heightWorkUnit_failure {env : Env} {node : FullNode} {atCall atEnd f : JSVal}
    (hget : ∀ url e, env.axiosGet url = .error e → isUpstreamFailure e = true)
    (hsend : ∀ a b e, node.send a b = .error e → isUpstreamFailure e = true)
    (h : heightWorkUnit env node atCall atEnd = .error f) : isUpstreamFailure f = true := by
  unfold heightWorkUnit at h
  cases h1 : node.send atCall atEnd with
  | error e =>
    simp only [h1, error_bind, Except.error.injEq] at h
    subst h; exact hsend _ _ _ h1
  | ok response =>
    simp only [h1, ok_bind] at h
    cases h2 : getProp response "data" with
    | error e =>
      simp only [h2, error_bind, Except.error.injEq] at h
      subst h; exact isUpstreamFailure_of_getProp_error h2
    | ok data =>
      simp only [h2, ok_bind] at h
      cases h3 : getProp data "result" with
      | error e =>
        simp only [h3, error_bind, Except.error.injEq] at h
        subst h; exact isUpstreamFailure_of_getProp_error h3
      | ok hash =>
        simp only [h3, ok_bind] at h
        cases h4 : env.axiosGet (blockUrl env hash) with
        | error e =>
          simp only [h4, error_bind, Except.error.injEq] at h
          subst h; exact hget _ _ h4
        | ok axiosResult =>
          simp only [h4, ok_bind] at h
          exact isUpstreamFailure_of_getProp_error h

/-- C21 fails on the code: `validateResults.filter(result => result)` keeps every
result, since each is an object.  For two txids of which the second is not a valid SLP
txid, `validateBulk` responds with both entries, the second with `valid: false`. -/
theorem validateBulk_keeps_invalid :
    validateBulk v2RouteUtils exampleEnv
        (fun txid => .ok (.bool (txid.strictEqStr exampleHashA))) 0
        (.obj [("body", .obj [("txids", .arr [.str exampleHashA, .str exampleHashB])])]) =
      .ok { status := .num 200,
            body := .arr [.obj [("txid", .str exampleHashA), ("valid", .bool true)],
                          .obj [("txid", .str exampleHashB), ("valid", .bool false)]] } :=
  rfl

theorem validateNetwork_total (sdk : AddressSdk) (network addr : JSVal) :
    ∃ b, validateNetwork sdk network addr = .ok b := by
  unfold validateNetwork
  cases validateNetworkTry sdk network addr with
  | error e => exact ⟨false, rfl⟩
  | ok b => exact ⟨b, rfl⟩

/-- The `validateNetwork` of `util/route-utils.js` does what is said of it: it returns
false when `NETWORK` is undefined or empty and when an SDK call throws, and when the
three SDK calls return it returns true exactly when `NETWORK` and the address agree. -/
theorem validateNetwork_util_spec (sdk : AddressSdk) (network addr : JSVal) :
    (network = .undefined ∨ network = .str "" → validateNetwork sdk network addr = .ok false) ∧
    (∀ e, sdk.isRegTestAddress addr = .error e → validateNetwork sdk network addr = .ok false) ∧
    (∀ r t m, sdk.isRegTestAddress addr = .ok r → sdk.isTestnetAddress addr = .ok t →
      sdk.isMainnetAddress addr = .ok m →
      validateNetwork sdk network addr =
        .ok ((network.strictEqStr "regtest" && r.truthy) ||
             (network.strictEqStr "testnet" && t.truthy) ||
             (network.strictEqStr "mainnet" && m.truthy))) := by
  refine ⟨?_, ?_, ?_⟩
  · rintro (rfl | rfl) <;> rfl
  · intro e he
    unfold validateNetwork validateNetworkTry
    by_cases hn : (!network.truthy || network.strictEqStr "") = true
    · simp [hn, pure, Except.pure]
    · simp [hn, he, error_bind]
  · intro r t m hr ht hm
    unfold validateNetwork validateNetworkTry
    by_cases hn : (!network.truthy || network.strictEqStr "") = true
    · have hne : ∀ s : String, s ≠ "" → network.strictEqStr s = false := by
        intro s hs
        cases network <;> simp [truthy, strictEqStr] at hn ⊢
        subst hn
        exact fun h => hs h.symm
      simp [hn, pure, Except.pure, hne]
    · simp only [hn, Bool.false_eq_true, if_false, hr, ht, hm, ok_bind]
      cases h1 : (network.strictEqStr "regtest" && r.truthy) <;>
        cases h2 : (network.strictEqStr "testnet" && t.truthy) <;>
        cases h3 : (network.strictEqStr "mainnet" && m.truthy) <;>
        simp [pure, Except.pure]

/-- C22 fails on the code: in `routes/v2/route-utils.js`, when the address SDK throws,
the `catch` block of `validateNetwork` reads the undeclared `logger` and the function
raises a `ReferenceError` instead of returning false; the version of
`util/route-utils.js` returns false on the same input. -/
theorem validateNetworkV2_raises :
    validateNetworkV2 throwingSdk (.str "mainnet") (.str "not-an-address") =
      .error (referenceError "logger is not defined") ∧
    validateNetwork throwingSdk (.str "mainnet") (.str "not-an-address") = .ok false :=
  ⟨rfl, rfl⟩

theorem heightWorkUnitAssign_initial (node : FullNode) (height : JSVal) :
    heightWorkUnitAssign (setEnvVarsConfig node) height = heightConfig node height := by
  rfl

theorem heightWorkUnitAssign_again (node : FullNode) (earlier height : JSVal) :
    heightWorkUnitAssign (heightConfig node earlier) height = heightConfig node height := by
  rfl

/-- The shared `requestConfig` holds what the last constructed work unit assigned: the
state-passing account of the assignments agrees with `finalHeightConfig`, the content
the handler model gives the full-node client for every work unit. -/
theorem sharedConfigAfter_eq_final (node : FullNode) (heights : List JSVal) :
    sharedConfigAfter node heights = finalHeightConfig node heights := by
  induction heights using List.reverseRecOn with
  | nil => rfl
  | append_singleton l a ih =>
    have hfin : finalHeightConfig node (l ++ [a]) = heightConfig node a := by
      simp [finalHeightConfig]
    rw [hfin]
    unfold sharedConfigAfter at ih ⊢
    rw [List.foldl_append, ih]
    simp only [List.foldl_cons, List.foldl_nil]
    unfold finalHeightConfig
    cases l.getLast? with
    | none => exact heightWorkUnitAssign_initial node a
    | some e => exact heightWorkUnitAssign_again node e a

/-- C26: the answer of `validateArraySize` does not depend on the request: for every
array (for every value of `array`, in fact) any two request objects, with
`locals.proLimit` set or not, get the same answer, because both limits are 20. -/
theorem validateArraySize_tier_independent (fields1 fields2 : List (String × JSVal))
    (array : JSVal) :
    validateArraySize (.obj fields1) array = validateArraySize (.obj fields2) array := by
  have h1 : getProp (.obj fields1) "locals" =
      .ok ((fields1.lookup "locals").getD .undefined) := rfl
  have h2 : getProp (.obj fields2) "locals" =
      .ok ((fields2.lookup "locals").getD .undefined) := rfl
  cases hlen : getProp array "length" with
  | error e =>
    rw [validateArraySize_of_throw h1 hlen, validateArraySize_of_throw h2 hlen]
  | ok len =>
    rw [validateArraySize_of_length h1 hlen, validateArraySize_of_length h2 hlen]

theorem lookup_cons_ne {k k0 : String} (v : JSVal) (l : List (String × JSVal))
    (h : k ≠ k0) : List.lookup k ((k0, v) :: l) = List.lookup k l := by
  have hb : (k == k0) = false := by simpa using h
  simp [List.lookup, hb]

theorem lookup_cons_self (k : String) (v : JSVal) (l : List (String × JSVal)) :
    List.lookup k ((k, v) :: l) = some v := by
  simp [List.lookup]

/-- C24: with the cache open and its reads working, a work unit of
`getRawTransactionsFromNode` reads through the cache.  On a hit it returns the cached
value, calls no upstream and leaves the cache as it is.  On a miss, when the full node
answers and the write succeeds, it returns the node's result after one full-node call,
and the cache then holds that result for the txid and is unchanged for every other
key. -/
theorem rawTxWorkUnit_read_through (node : FullNode) (atEnd : JSVal) (cache : RawTxCache)
    (txid : JSVal) (hopen : cache.isOpen = true) (hget : cache.getFault = none) :
    (∀ rawTx, cache.entry txid = some rawTx →
      (rawTxWorkUnit node atEnd cache txid).outcome = .ok rawTx ∧
      (rawTxWorkUnit node atEnd cache txid).calls = [] ∧
      (rawTxWorkUnit node atEnd cache txid).cache = cache) ∧
    (cache.entry txid = none → cache.putFault = none →
      ∀ response data result,
        node.send (rpcConfig node "getrawtransaction" [txid, .num 0]) atEnd = .ok response →
        getProp response "data" = .ok data → getProp data "result" = .ok result →
        (rawTxWorkUnit node atEnd cache txid).outcome = .ok result ∧
        (rawTxWorkUnit node atEnd cache txid).calls =
          [.rpc (rpcConfig node "getrawtransaction" [txid, .num 0])] ∧
        (rawTxWorkUnit node atEnd cache txid).cache.entry txid = some result ∧
        ∀ other, toStr other ≠ toStr txid →
          (rawTxWorkUnit node atEnd cache txid).cache.entry other = cache.entry other) := by
  constructor
  · intro rawTx hentry
    have hg : cache.get txid = .ok rawTx := by simp [RawTxCache.get, hget, hentry]
    simp [rawTxWorkUnit, hopen, hg]
  · intro hentry hput response data result hsend hd hr
    have hg : cache.get txid = .error notFoundError := by
      simp [RawTxCache.get, hget, hentry]
    have hp : cache.put txid result =
        .ok { cache with entries := (toStr txid, result) :: cache.entries } := by
      simp [RawTxCache.put, hput]
    have hrun : rawTxWorkUnit node atEnd cache txid =
        { outcome := .ok result,
          cache := { cache with entries := (toStr txid, result) :: cache.entries },
          calls := [.rpc (rpcConfig node "getrawtransaction" [txid, .num 0])] } := by
      simp [rawTxWorkUnit, hopen, hg, hsend, hd, hr, ok_bind, hp]
    rw [hrun]
    refine ⟨rfl, rfl, ?_, ?_⟩
    · simp [RawTxCache.entry, lookup_cons_self]
    · intro other hne
      simp [RawTxCache.entry, lookup_cons_ne _ _ hne]

/-- Witness of C24: the cached `exampleHashA` is a hit, `exampleHashB` is a miss that
the full node answers. -/
theorem rawTxWorkUnit_read_through_witness :
    ((rawTxWorkUnit rawTxNode .null exampleCache (.str exampleHashA)).outcome =
        .ok (.str "0100beef") ∧
      (rawTxWorkUnit rawTxNode .null exampleCache (.str exampleHashA)).calls = [] ∧
      (rawTxWorkUnit rawTxNode .null exampleCache (.str exampleHashA)).cache = exampleCache) ∧
    ((rawTxWorkUnit rawTxNode .null exampleCache (.str exampleHashB)).outcome =
        .ok (.str "0200cafe") ∧
      (rawTxWorkUnit rawTxNode .null exampleCache (.str exampleHashB)).calls =
        [.rpc (rpcConfig rawTxNode "getrawtransaction" [.str exampleHashB, .num 0])] ∧
      (rawTxWorkUnit rawTxNode .null exampleCache (.str exampleHashB)).cache.entry
        (.str exampleHashB) = some (.str "0200cafe") ∧
      ∀ other, toStr other ≠ toStr (.str exampleHashB) →
        (rawTxWorkUnit rawTxNode .null exampleCache (.str exampleHashB)).cache.entry other =
          exampleCache.entry other) :=
  ⟨(rawTxWorkUnit_read_through rawTxNode .null exampleCache (.str exampleHashA) rfl rfl).1
      (.str "0100beef") rfl,
   (rawTxWorkUnit_read_through rawTxNode .null exampleCache (.str exampleHashB) rfl rfl).2
      rfl rfl
      (.obj [("status", .num 200), ("data", .obj [("result", .str "0200cafe")])])
      (.obj [("result", .str "0200cafe")]) (.str "0200cafe") rfl rfl rfl⟩

/-- C25: when the full-node call succeeds, a work unit of `getRawTransactionsFromNode`
never fails, whatever the cache does; and when the cache gives no value (it is closed,
or the read fails or misses) the work unit returns the node's result, whether the cache
write succeeds, fails or is skipped. -/
theorem rawTxWorkUnit_cache_failure (node : FullNode) (atEnd : JSVal) (cache : RawTxCache)
    (txid response data result : JSVal)
    (hsend : node.send (rpcConfig node "getrawtransaction" [txid, .num 0]) atEnd =
      .ok response)
    (hd : getProp response "data" = .ok data) (hr : getProp data "result" = .ok result) :
    (∃ v, (rawTxWorkUnit node atEnd cache txid).outcome = .ok v) ∧
    (cache.isOpen = false ∨ (∃ e, cache.get txid = .error e) →
      (rawTxWorkUnit node atEnd cache txid).outcome = .ok result) := by
  have hmiss : cache.isOpen = false ∨ (∃ e, cache.get txid = .error e) →
      (rawTxWorkUnit node atEnd cache txid).outcome = .ok result := by
    rintro (hclosed | ⟨e, he⟩)
    · simp [rawTxWorkUnit, hclosed, hsend, hd, hr, ok_bind]
    · cases hopen : cache.isOpen <;>
        simp [rawTxWorkUnit, hopen, he, hsend, hd, hr, ok_bind]
  refine ⟨?_, hmiss⟩
  cases hopen : cache.isOpen with
  | false => exact ⟨result, hmiss (Or.inl hopen)⟩
  | true =>
    cases hg : cache.get txid with
    | error e => exact ⟨result, hmiss (Or.inr ⟨e, hg⟩)⟩
    | ok rawTx => exact ⟨rawTx, by simp [rawTxWorkUnit, hopen, hg]⟩

/-- Witness of C25: a cache whose reads and writes fail. -/
theorem rawTxWorkUnit_cache_failure_witness :
    (∃ v, (rawTxWorkUnit rawTxNode .null
        { isOpen := true, entries := [], getFault := some (.str "IO error"),
          putFault := some (.str "IO error") } (.str exampleHashA)).outcome = .ok v) ∧
    (rawTxWorkUnit rawTxNode .null
        { isOpen := true, entries := [], getFault := some (.str "IO error"),
          putFault := some (.str "IO error") } (.str exampleHashA)).outcome =
      .ok (.str "0200cafe") :=
  ⟨(rawTxWorkUnit_cache_failure rawTxNode .null
      { isOpen := true, entries := [], getFault := some (.str "IO error"),
        putFault := some (.str "IO error") } (.str exampleHashA)
      (.obj [("status", .num 200), ("data", .obj [("result", .str "0200cafe")])])
      (.obj [("result", .str "0200cafe")]) (.str "0200cafe") rfl rfl rfl).1,
   (rawTxWorkUnit_cache_failure rawTxNode .null
      { isOpen := true, entries := [], getFault := some (.str "IO error"),
        putFault := some (.str "IO error") } (.str exampleHashA)
      (.obj [("status", .num 200), ("data", .obj [("result", .str "0200cafe")])])
      (.obj [("result", .str "0200cafe")]) (.str "0200cafe") rfl rfl rfl).2
      (Or.inr ⟨.str "IO error", rfl⟩)⟩

theorem anyEmptyHeight_iff (heights : List JSVal) :
    anyEmptyHeight heights = true ↔ ∃ h ∈ heights, h.truthy = false := by
  induction heights with
  | nil => simp [anyEmptyHeight]
  | cons a rest ih =>
    have ha : (!a.truthy || a.strictEqStr "") = !a.truthy := by
      cases a <;> simp [truthy, strictEqStr]
    unfold anyEmptyHeight
    rw [ha]
    cases hat : a.truthy with
    | true => simp [ih, hat]
    | false => simp [hat]

/-- C28 fails on the code: the `return res.json(result)` for the matching entry is
inside the callback of `forEach`, so the handler goes on and calls
`res.json("No balance for this address and tokenId")` as well.  For an address that
holds the requested token: with the response object of Express that second call throws,
the `catch` block's own `res.json` throws again and the handler rejects; with a response
object whose `json` returns its argument the handler returns the `No balance` text. -/
theorem balancesForAddressByTokenID_sends_twice :
    balancesForAddressByTokenID v2RouteUtils expressRes exampleTokenSdk 0 exampleBalances
        (.str exampleHashA) =
      { outcome := .error headersSentError,
        attempts :=
          [.obj [("tokenId", .str exampleHashA), ("balance", .str "1.5"),
                 ("decimalCount", .num 2)],
           .str "No balance for this address and tokenId",
           .obj [("error", .str
             "Error in /balance/:address/:tokenId: Cannot set headers after they are sent to the client")]] } ∧
    balancesForAddressByTokenID v2RouteUtils echoRes exampleTokenSdk 0 exampleBalances
        (.str exampleHashA) =
      { outcome := .ok (.str "No balance for this address and tokenId"),
        attempts :=
          [.obj [("tokenId", .str exampleHashA), ("balance", .str "1.5"),
                 ("decimalCount", .num 2)],
           .str "No balance for this address and tokenId"] } :=
  ⟨rfl, rfl⟩

theorem decode_nested_message {ru : RouteUtils}
    (hdec : ru.decodeError = decodeError ∨ ru.decodeError = decodeErrorV2)
    {err response data error X : JSVal}
    (hr : getProp err "response" = .ok response)
    (hd : getProp response "data" = .ok data)
    (he : getProp data "error" = .ok error)
    (hm : getProp error "message" = .ok X)
    (hX : X.truthy = true) :
    ru.decodeError err = .ok { msg := X, status := .num 400 } := by
  have het := truthy_of_getProp hm hX
  have hdt := truthy_of_getProp he het
  have h1 : fullNodeCond err = .ok X := by
    rw [fullNodeCond_eq hr hd he hdt]; simp [het, hm]
  rcases hdec with h | h
  · rw [h]; simp [decodeError, decodeErrorTry_eq, h1, ok_bind, hX]
  · rw [h]; simp [decodeErrorV2, decodeErrorV2Try_eq, h1, ok_bind, hX]

/-- With the module the sources load, `detailsByHashBulk` answers every array of hashes
with status 500 and the rendering of the `TypeError` of the missing guard, and requests
nothing from the indexing service. -/
theorem detailsByHashBulk_guard_missing (env : Env) (pick : Nat) (req body : JSVal)
    (hashes : List JSVal)
    (hb : getProp req "body" = .ok body)
    (hh : getProp body "hashes" = .ok (.arr hashes)) :
    detailsByHashBulk loadedRouteUtils env pick req =
      .ok { status := .num 500,
            body := errorBody (.str (env.inspect
              (typeError "routeUtils.validateArraySize is not a function"))) } ∧
    detailsByHashBulkCalls loadedRouteUtils env pick req = [] := by
  have htry : detailsByHashBulkTry loadedRouteUtils env pick req =
      (.error (typeError "routeUtils.validateArraySize is not a function"), []) := by
    simp only [detailsByHashBulkTry, hb, hh, ok_bind]
    rfl
  have hc : errorCascade loadedRouteUtils env
      (typeError "routeUtils.validateArraySize is not a function") =
      .ok { status := .num 500,
            body := errorBody (.str (env.inspect
              (typeError "routeUtils.validateArraySize is not a function"))) } := rfl
  constructor
  · simp only [detailsByHashBulk, htry, hc]
  · simp only [detailsByHashBulkCalls, htry]

/-- With the module the sources load, `detailsByHeightBulk` answers every array of
heights with status 500 and the rendering of the `TypeError` of the missing guard, and
issues no upstream call. -/
theorem detailsByHeightBulk_guard_missing (env : Env) (node : FullNode) (pick : Nat)
    (req body : JSVal) (heights : List JSVal)
    (hb : getProp req "body" = .ok body)
    (hh : getProp body "heights" = .ok (.arr heights)) :
    detailsByHeightBulk loadedRouteUtils env node pick req =
      .ok { status := .num 500,
            body := errorBody (.str (env.inspect
              (typeError "routeUtils.validateArraySize is not a function"))) } ∧
    detailsByHeightBulkCalls loadedRouteUtils env node pick req = [] := by
  have htry : detailsByHeightBulkTry loadedRouteUtils env node pick req =
      (.error (typeError "routeUtils.validateArraySize is not a function"), []) := by
    simp only [detailsByHeightBulkTry, hb, hh, ok_bind]
    rfl
  have hc : errorCascade loadedRouteUtils env
      (typeError "routeUtils.validateArraySize is not a function") =
      .ok { status := .num 500,
            body := errorBody (.str (env.inspect
              (typeError "routeUtils.validateArraySize is not a function"))) } := rfl
  constructor
  · simp only [detailsByHeightBulk, htry, hc]
  · simp only [detailsByHeightBulkCalls, htry]

/-- C10 fails on the code: `block.ts` calls `routeUtils.validateArraySize`, which the
module it loads (`src/routes/v2/route-utils.js`) does not export.  For two well-formed
hashes whose lookups succeed the call throws a `TypeError`, and `detailsByHashBulk`
responds with status 500 and the rendering of that error, not with 200 and the two
payloads; no lookup is issued.  For the empty array the response is the same error, not
the empty array. -/
theorem detailsByHashBulk_success_fails :
    getProp (.str exampleHashA) "length" = .ok (.num 64) ∧
    getProp (.str exampleHashB) "length" = .ok (.num 64) ∧
    exampleEnv.axiosGet (blockUrl exampleEnv (.str exampleHashA)) =
      .ok (.obj [("status", .num 200),
                 ("data", .obj [("url", .str (blockUrl exampleEnv (.str exampleHashA)))])]) ∧
    exampleEnv.axiosGet (blockUrl exampleEnv (.str exampleHashB)) =
      .ok (.obj [("status", .num 200),
                 ("data", .obj [("url", .str (blockUrl exampleEnv (.str exampleHashB)))])]) ∧
    detailsByHashBulk loadedRouteUtils exampleEnv 0 exampleBulkRequest =
      .ok { status := .num 500,
            body := errorBody (.str (exampleEnv.inspect
              (typeError "routeUtils.validateArraySize is not a function"))) } ∧
    detailsByHashBulkCalls loadedRouteUtils exampleEnv 0 exampleBulkRequest = [] ∧
    detailsByHashBulk loadedRouteUtils exampleEnv 0 emptyArrayRequest =
      .ok { status := .num 500,
            body := errorBody (.str (exampleEnv.inspect
              (typeError "routeUtils.validateArraySize is not a function"))) } :=
  ⟨rfl, rfl, rfl, rfl, rfl, rfl, rfl⟩

/-- C13 fails on the code: for the 25 empty strings of `test/v2/block.js` the call of
the guard the loaded module does not export throws a `TypeError`, and
`detailsByHashBulk` responds with status 500 and the rendering of that error, not with
429 and `Array too large.`; no lookup is issued. -/
theorem detailsByHashBulk_oversized_fails :
    detailsByHashBulk loadedRouteUtils exampleEnv 0 oversizedRequest =
      .ok { status := .num 500,
            body := errorBody (.str (exampleEnv.inspect
              (typeError "routeUtils.validateArraySize is not a function"))) } ∧
    detailsByHashBulkCalls loadedRouteUtils exampleEnv 0 oversizedRequest = [] ∧
    detailsByHashBulk loadedRouteUtils exampleEnv 0 oversizedRequest ≠
      .ok { status := .num 429, body := errorBody (.str "Array too large.") } := by
  have h : detailsByHashBulk loadedRouteUtils exampleEnv 0 oversizedRequest =
      .ok { status := .num 500,
            body := errorBody (.str (exampleEnv.inspect
              (typeError "routeUtils.validateArraySize is not a function"))) } := rfl
  refine ⟨h, rfl, ?_⟩
  rw [h]
  simp

/-- C11: when at least one work unit of a bulk request fails, `detailsByHashBulk` and
`detailsByHeightBulk` respond with an error body `{ error }` and a status other than
200; no partial result array is sent.  This holds for the module the sources load,
whose missing guard throws a `TypeError`, and for every module that has one of the two
versions of `decodeError` and a guard that answers true or false or throws an error
object; the request's entries pass the per-item validation, and each failure is one an
HTTP client raises or a `TypeError` of the work unit. -/
theorem bulk_failure_is_error (ru : RouteUtils)
    (hdec : ru.decodeError = decodeError ∨ ru.decodeError = decodeErrorV2)
    (env : Env) (node : FullNode) (pick : Nat) (req body : JSVal)
    (hb : getProp req "body" = .ok body)
    (hguard : ∀ array e, ru.validateArraySize req array = .error e →
      isUpstreamFailure e = true)
    (hget : ∀ url e, env.axiosGet url = .error e → isUpstreamFailure e = true)
    (hsend : ∀ a b e, node.send a b = .error e → isUpstreamFailure e = true) :
    (∀ hashes, getProp body "hashes" = .ok (.arr hashes) →
      (∀ h ∈ hashes, getProp h "length" = .ok (.num 64)) →
      (∃ h ∈ hashes, ∃ e, env.axiosGet (blockUrl env h) = .error e) →
      ∃ st m, detailsByHashBulk ru env pick req =
        .ok { status := st, body := errorBody m } ∧ st ≠ .num 200) ∧
    (∀ heights, getProp body "heights" = .ok (.arr heights) →
      anyEmptyHeight heights = false →
      (∃ h ∈ heights, ∃ e, heightWorkUnit env node (heightConfig node h)
        (finalHeightConfig node heights) = .error e) →
      ∃ st m, detailsByHeightBulk ru env node pick req =
        .ok { status := st, body := errorBody m } ∧ st ≠ .num 200) := by
  constructor
  · intro hashes hh hwf hfail
    cases hvs : ru.validateArraySize req (.arr hashes) with
    | error e =>
      have htry : (detailsByHashBulkTry ru env pick req).1 = .error e := by
        simp only [detailsByHashBulkTry, hb, hh, ok_bind, hvs]
      obtain ⟨st, m, hc, hne⟩ := errorCascade_of_failure hdec env (hguard _ _ hvs)
      exact ⟨st, m, by simp only [detailsByHashBulk, htry, hc], hne⟩
    | ok within =>
      cases within with
      | false =>
        have htry : (detailsByHashBulkTry ru env pick req).1 =
            .ok { status := .num 429, body := errorBody (.str "Array too large.") } := by
          simp only [detailsByHashBulkTry, hb, hh, ok_bind, hvs]
        exact ⟨.num 429, .str "Array too large.",
          by simp only [detailsByHashBulk, htry], by simp⟩
      | true =>
        obtain ⟨f, htry, h1, _, h1e⟩ :=
          detailsByHashBulkTry_of_failure pick hb hh hvs hwf hfail
        obtain ⟨st, m, hc, hne⟩ := errorCascade_of_failure hdec env (hget _ _ h1e)
        exact ⟨st, m, by simp only [detailsByHashBulk, htry, hc], hne⟩
  · intro heights hh hne hfail
    cases hvs : ru.validateArraySize req (.arr heights) with
    | error e =>
      have htry : (detailsByHeightBulkTry ru env node pick req).1 = .error e := by
        simp only [detailsByHeightBulkTry, hb, hh, ok_bind, hvs]
      obtain ⟨st, m, hc, hn200⟩ := errorCascade_of_failure hdec env (hguard _ _ hvs)
      exact ⟨st, m, by simp only [detailsByHeightBulk, htry, hc], hn200⟩
    | ok within =>
      cases within with
      | false =>
        have htry : (detailsByHeightBulkTry ru env node pick req).1 =
            .ok { status := .num 429, body := errorBody (.str "Array too large.") } := by
          simp only [detailsByHeightBulkTry, hb, hh, ok_bind, hvs]
        exact ⟨.num 429, .str "Array too large.",
          by simp only [detailsByHeightBulk, htry], by simp⟩
      | true =>
        obtain ⟨h0, hh0, e, he⟩ := hfail
        have hmem : Except.error e ∈ heights.map (fun height =>
            heightWorkUnit env node (heightConfig node height)
              (finalHeightConfig node heights)) := by
          simp only [List.mem_map]
          exact ⟨h0, hh0, he⟩
        obtain ⟨f, hf, hfm⟩ := axiosAll_error_of_mem pick hmem
        simp only [List.mem_map] at hfm
        obtain ⟨h1, _, h1e⟩ := hfm
        have htry : (detailsByHeightBulkTry ru env node pick req).1 = .error f := by
          simp only [detailsByHeightBulkTry, hb, hh, ok_bind, hvs, hne, Bool.false_eq_true,
            if_false, hf, error_bind]
        obtain ⟨st, m, hc, hn200⟩ :=
          errorCascade_of_failure hdec env (heightWorkUnit_failure hget hsend h1e)
        exact ⟨st, m, by simp only [detailsByHeightBulk, htry, hc], hn200⟩

/-- Witness of C11, on the module the sources load: of two block lookups the first
succeeds and the second fails with a 404; for the heights the full node is
unreachable. -/
theorem bulk_failure_is_error_witness :
    (∃ st m, detailsByHashBulk loadedRouteUtils flakyEnv 0 exampleMixedRequest =
      .ok { status := st, body := errorBody m } ∧ st ≠ .num 200) ∧
    (∃ st m, detailsByHeightBulk loadedRouteUtils flakyEnv (failingNode dnsFailure) 0
        exampleMixedRequest =
      .ok { status := st, body := errorBody m } ∧ st ≠ .num 200) :=
  ⟨(bulk_failure_is_error loadedRouteUtils (Or.inr rfl) flakyEnv (failingNode dnsFailure) 0
      exampleMixedRequest
      (.obj [("hashes", .arr [.str exampleHashA, .str exampleHashB]),
             ("heights", .arr [.num 500000, .num 500001])])
      rfl
      (by
        intro array e h
        rw [← Except.error.inj h]; rfl)
      (by
        intro url e h
        simp only [flakyEnv] at h
        split at h
        · cases h
        · rw [← Except.error.inj h]; rfl)
      (by
        intro a b e h
        rw [← Except.error.inj h]; rfl)).1
      [.str exampleHashA, .str exampleHashB] rfl
      (by
        intro h hh
        simp only [List.mem_cons, List.mem_singleton, List.not_mem_nil, or_false] at hh
        rcases hh with rfl | rfl <;> rfl)
      ⟨.str exampleHashB, by simp, notFoundFailure, rfl⟩,
   (bulk_failure_is_error loadedRouteUtils (Or.inr rfl) flakyEnv (failingNode dnsFailure) 0
      exampleMixedRequest
      (.obj [("hashes", .arr [.str exampleHashA, .str exampleHashB]),
             ("heights", .arr [.num 500000, .num 500001])])
      rfl
      (by
        intro array e h
        rw [← Except.error.inj h]; rfl)
      (by
        intro url e h
        simp only [flakyEnv] at h
        split at h
        · cases h
        · rw [← Except.error.inj h]; rfl)
      (by
        intro a b e h
        rw [← Except.error.inj h]; rfl)).2
      [.num 500000, .num 500001] rfl rfl
      ⟨.num 500000, by simp, dnsFailure, rfl⟩⟩

/-- Counterexample to C17 as stated: an upstream failure whose response status is 404
and whose body has the nested `error.message` `Method not found` is answered by
`detailsByHashSingle` with status 400 and that message, with the module the sources
load and with the newer `decodeError` alike: `decodeError` is asked before the 404
step. -/
theorem not_found_with_message_counterexample :
    signalsNotFound notFoundWithMessage = true ∧
    detailsByHashSingle loadedRouteUtils (failingEnv notFoundWithMessage)
        exampleHashRequest =
      .ok { status := .num 400, body := errorBody (.str "Method not found") } ∧
    detailsByHashSingle utilRouteUtils (failingEnv notFoundWithMessage)
        exampleHashRequest =
      .ok { status := .num 400, body := errorBody (.str "Method not found") } ∧
    detailsByHashSingle loadedRouteUtils (failingEnv notFoundWithMessage)
        exampleHashRequest ≠
      .ok { status := .num 404, body := errorBody (.str "Not Found") } := by
  have h : detailsByHashSingle loadedRouteUtils (failingEnv notFoundWithMessage)
      exampleHashRequest =
      .ok { status := .num 400, body := errorBody (.str "Method not found") } := rfl
  refine ⟨rfl, h, rfl, ?_⟩
  rw [h]
  simp

/-- C17 (amended): for every upstream failure whose response status is 404,
`detailsByHashSingle` responds with status 404 when `decodeError` finds nothing else in
the failure (no nested `error.message` in the response body, no network marker in the
message, no connection code), and with status 400 and that message when the response
body has a nested truthy `error.message`; with either version of `decodeError`. -/
theorem not_found_maps_to_404 (ru : RouteUtils)
    (hdec : ru.decodeError = decodeError ∨ ru.decodeError = decodeErrorV2) (env : Env)
    (req params hash f : JSVal)
    (hp : getProp req "params" = .ok params)
    (hh : getProp params "hash" = .ok hash)
    (ht : hash.truthy = true)
    (hup : env.axiosGet (blockUrl env hash) = .error f) :
    (plainNotFound f →
      ∃ b, detailsByHashSingle ru env req = .ok { status := .num 404, body := b }) ∧
    (∀ response data error X, getProp f "response" = .ok response →
      getProp response "status" = .ok (.num 404) →
      getProp response "data" = .ok data → getProp data "error" = .ok error →
      getProp error "message" = .ok X → X.truthy = true →
      detailsByHashSingle ru env req = .ok { status := .num 400, body := errorBody X }) := by
  have htry := detailsByHashSingleTry_of_failure hp hh ht hup
  constructor
  · intro hf
    obtain ⟨b, hb⟩ := errorCascade_plainNotFound hdec env hf
    exact ⟨b, by simp [detailsByHashSingle, detailsByHashSingleOn, htry, hb]⟩
  · intro response data error X hr _ hd he hm hX
    have hd400 := decode_nested_message hdec hr hd he hm hX
    have hc : errorCascade ru env f = .ok { status := .num 400, body := errorBody X } := by
      rw [errorCascade_eq hr hd400]
      simp [cascadeResponse, hX]
    simp [detailsByHashSingle, detailsByHashSingleOn, htry, hc]

/-- Witness of C17 (amended), on the module the sources load: the upstream 404 with body
`{ statusText: "Not Found" }` of `test/v2/block.js` is answered 404, the upstream 404
with body `{ error: { message: "Method not found" } }` is answered 400. -/
theorem not_found_maps_to_404_witness :
    (∃ b, detailsByHashSingle loadedRouteUtils (failingEnv notFoundFailure)
        exampleHashRequest = .ok { status := .num 404, body := b }) ∧
    detailsByHashSingle loadedRouteUtils (failingEnv notFoundWithMessage)
        exampleHashRequest =
      .ok { status := .num 400, body := errorBody (.str "Method not found") } :=
  ⟨(not_found_maps_to_404 loadedRouteUtils (Or.inr rfl) (failingEnv notFoundFailure)
      exampleHashRequest (.obj [("hash", .str exampleHashA)]) (.str exampleHashA)
      notFoundFailure rfl rfl rfl rfl).1 plainNotFound_notFoundFailure,
   (not_found_maps_to_404 loadedRouteUtils (Or.inr rfl) (failingEnv notFoundWithMessage)
      exampleHashRequest (.obj [("hash", .str exampleHashA)]) (.str exampleHashA)
      notFoundWithMessage rfl rfl rfl rfl).2
      (.obj [("status", .num 404),
             ("data", .obj [("error", .obj [("message", .str "Method not found")])])])
      (.obj [("error", .obj [("message", .str "Method not found")])])
      (.obj [("message", .str "Method not found")])
      (.str "Method not found") rfl rfl rfl rfl rfl rfl⟩

/-- Counterexample to C20 as stated: for a `txids` array of 21 entries `validateBulk`
responds with status 400, the status its own size check sets, not with 429. -/
theorem validateBulk_oversized_counterexample :
    validateBulk loadedRouteUtils exampleEnv (fun _ => .ok (.bool true)) 0
        (.obj [("body", .obj [("txids", .arr (List.replicate 21 (.str exampleHashA)))])]) =
      .ok { status := .num 400,
            body := .obj [("error", .str "Array too large. Max 20 txids")] } ∧
    validateBulk loadedRouteUtils exampleEnv (fun _ => .ok (.bool true)) 0
        (.obj [("body", .obj [("txids", .arr (List.replicate 21 (.str exampleHashA)))])]) ≠
      .ok { status := .num 429,
            body := .obj [("error", .str "Array too large. Max 20 txids")] } := by
  have h : validateBulk loadedRouteUtils exampleEnv (fun _ => .ok (.bool true)) 0
      (.obj [("body", .obj [("txids", .arr (List.replicate 21 (.str exampleHashA)))])]) =
      .ok { status := .num 400,
            body := .obj [("error", .str "Array too large. Max 20 txids")] } := rfl
  refine ⟨h, ?_⟩
  rw [h]
  simp

/-- Witness of C20 (amended): 21 txids, on the module the sources load. -/
theorem validateBulk_too_large_witness :
    validateBulk loadedRouteUtils exampleEnv (fun _ => .ok (.bool true)) 0
        (.obj [("body", .obj [("txids", .arr (List.replicate 21 (.str exampleHashA)))])]) =
      .ok { status := .num 400, body := errorBody (.str "Array too large. Max 20 txids") } ∧
    validateBulkCalls (fun _ => .ok (.bool true)) 0
        (.obj [("body", .obj [("txids", .arr (List.replicate 21 (.str exampleHashA)))])]) =
      [] :=
  validateBulk_too_large loadedRouteUtils exampleEnv (fun _ => .ok (.bool true)) 0
    (.obj [("body", .obj [("txids", .arr (List.replicate 21 (.str exampleHashA)))])])
    (.obj [("txids", .arr (List.replicate 21 (.str exampleHashA)))])
    (List.replicate 21 (.str exampleHashA)) rfl rfl (by decide)

theorem rawTxAssign_closed (requestConfig txid : JSVal) :
    rawTxAssign closedCache requestConfig txid =
      assignRequest requestConfig "getrawtransaction" [txid, .num 0] := by
  rfl

theorem rawTxConfig_closed (node : FullNode) (txids : List JSVal) :
    txids.foldl (rawTxAssign closedCache) (setEnvVarsConfig node) = setEnvVarsConfig node ∨
    ∃ txid, txids.foldl (rawTxAssign closedCache) (setEnvVarsConfig node) =
      rpcConfig node "getrawtransaction" [txid, .num 0] := by
  induction txids using List.reverseRecOn with
  | nil => exact Or.inl rfl
  | append_singleton l a ih =>
    rw [List.foldl_append]
    simp only [List.foldl_cons, List.foldl_nil, rawTxAssign_closed]
    rcases ih with h | ⟨t, h⟩
    · exact Or.inr ⟨a, by rw [h]; rfl⟩
    · exact Or.inr ⟨a, by rw [h]; rfl⟩

/-- With a cache that is not open, the shared `requestConfig` of
`getRawTransactionsFromNode` holds, once all work units are constructed, the assignments
of the last one, whatever the earlier txids are. -/
theorem getRawTransactionsFromNode_config_of_last (node : FullNode) (pick : Nat)
    (txids : List JSVal) (last : JSVal) :
    (getRawTransactionsFromNode node closedCache pick (txids ++ [last])).requestConfig =
      rpcConfig node "getrawtransaction" [last, .num 0] := by
  show (txids ++ [last]).foldl (rawTxAssign closedCache) (setEnvVarsConfig node) = _
  rw [List.foldl_append]
  simp only [List.foldl_cons, List.foldl_nil, rawTxAssign_closed]
  rcases rawTxConfig_closed node txids with h | ⟨t, h⟩
  · rw [h]; rfl
  · rw [h]; rfl

/-- C23 fails on the code: the work units of `getRawTransactionsFromNode` share the one
`requestConfig` object of `setEnvVars`.  For the txids `[A, B]` and a cache that is not
open, the object has `params = [A, 0]` when the first work unit hands it to the client
and `params = [B, 0]` when the second does; it is the same object, so once both work
units are constructed the configuration handed over for item 0 has `params = [B, 0]`.  A
client that reads the object when it sends the request returns the transaction of `B`
for both items. -/
theorem getRawTransactionsFromNode_shares_requestConfig :
    (getRawTransactionsFromNode rawTxNode closedCache 0
        [.str exampleHashA, .str exampleHashB]).calls =
      [.rpc (rpcConfig rawTxNode "getrawtransaction" [.str exampleHashA, .num 0]),
       .rpc (rpcConfig rawTxNode "getrawtransaction" [.str exampleHashB, .num 0])] ∧
    paramsOf (rpcConfig rawTxNode "getrawtransaction" [.str exampleHashA, .num 0]) =
      .arr [.str exampleHashA, .num 0] ∧
    paramsOf (getRawTransactionsFromNode rawTxNode closedCache 0
        [.str exampleHashA, .str exampleHashB]).requestConfig =
      .arr [.str exampleHashB, .num 0] ∧
    paramsOf (getRawTransactionsFromNode rawTxNode closedCache 0
        [.str exampleHashA, .str exampleHashB]).requestConfig ≠
      .arr [.str exampleHashA, .num 0] ∧
    (getRawTransactionsFromNode lateReadingNode closedCache 0
        [.str exampleHashA, .str exampleHashB]).outcome =
      .ok (.arr [.arr [.str exampleHashB, .num 0], .arr [.str exampleHashB, .num 0]]) := by
  have h : paramsOf (getRawTransactionsFromNode rawTxNode closedCache 0
      [.str exampleHashA, .str exampleHashB]).requestConfig =
      .arr [.str exampleHashB, .num 0] := rfl
  refine ⟨rfl, rfl, h, ?_, rfl⟩
  rw [h]
  simp [exampleHashA, exampleHashB]

/-- C27 fails on the code: `detailsByHeightBulk` calls `routeUtils.validateArraySize`,
which the module it loads does not export, before it looks at the entries.  For the
heights `[500000, 0]`, whose second entry is falsy, the call throws a `TypeError` and
the response is status 500 with the rendering of that error, not 400 with
`height must not be empty`; for `[500000, 500001]`, with no falsy entry, the response
is the same error and no work unit is started. -/
theorem detailsByHeightBulk_empty_height_fails :
    (JSVal.num 0).truthy = false ∧
    anyEmptyHeight [.num 500000, .num 0] = true ∧
    detailsByHeightBulk loadedRouteUtils exampleEnv exampleNode 0 zeroHeightRequest =
      .ok { status := .num 500,
            body := errorBody (.str (exampleEnv.inspect
              (typeError "routeUtils.validateArraySize is not a function"))) } ∧
    detailsByHeightBulk loadedRouteUtils exampleEnv exampleNode 0 zeroHeightRequest ≠
      .ok { status := .num 400, body := errorBody (.str "height must not be empty") } ∧
    anyEmptyHeight [.num 500000, .num 500001] = false ∧
    detailsByHeightBulk loadedRouteUtils exampleEnv exampleNode 0 exampleHeightsRequest =
      .ok { status := .num 500,
            body := errorBody (.str (exampleEnv.inspect
              (typeError "routeUtils.validateArraySize is not a function"))) } ∧
    detailsByHeightBulkCalls loadedRouteUtils exampleEnv exampleNode 0
      exampleHeightsRequest = [] := by
  have h : detailsByHeightBulk loadedRouteUtils exampleEnv exampleNode 0 zeroHeightRequest =
      .ok { status := .num 500,
            body := errorBody (.str (exampleEnv.inspect
              (typeError "routeUtils.validateArraySize is not a function"))) } := rfl
  refine ⟨rfl, rfl, h, ?_, rfl, rfl, rfl⟩
  rw [h]
  simp [errorBody]

end RestBitcoin
